import Mathlib

/-!
Verification of the nudge-finance-tracker backend against its specification.

The Python sources (FastAPI + SQLAlchemy) are shallowly embedded:

* the relational tables become lists of records inside a `Db` structure;
* SQLAlchemy queries (`filter` / `first` / `func.sum`) become `List.find?`,
  `List.filter` and list sums;
* monetary amounts (Python floats) are modelled as exact rationals `ℚ`;
* `datetime` values are modelled at day granularity by `DateTime`
  (year, month, day) with the chronological (lexicographic) order;
* endpoint handlers become pure functions returning
  `(Except HTTPError α) × Db`: an `HTTPException` raised before any
  `db.commit()` leaves the database component unchanged;
* external library calls that are not part of the repository (Argon2
  hashing, JWT encoding/decoding, `secrets.token_urlsafe`) are passed in
  as parameters: a hash function, an abstract decode function, the freshly
  generated random token string, and the computed expiry timestamp.
-/

/-- `HTTPException(status_code, detail)` raised by the handlers. -/
structure HTTPError where
  status_code : ℕ
  detail : String
deriving Repr, DecidableEq

/-- `common.enum.TransactionTypeEnum`.  The module itself is outside the
packaged sources, but its definition is recorded verbatim in a comment in
`models.py` (`INCOME = "INCOME"; EXPENSE = "EXPENSE"`) and the routers only
ever use these two members. -/
inductive TransactionTypeEnum where
  | INCOME
  | EXPENSE
deriving Repr, DecidableEq

/-- A `datetime` at day granularity (the handlers only ever compare
chronologically and extract year/month, so hours and finer are irrelevant
to the verified claims). -/
structure DateTime where
  year : ℕ
  month : ℕ
  day : ℕ
deriving Repr, DecidableEq

/-- Chronological strict order on datetimes (lexicographic on y/m/d). -/
def DateTime.blt (a b : DateTime) : Bool :=
  a.year < b.year ∨
    (a.year = b.year ∧ (a.month < b.month ∨ (a.month = b.month ∧ a.day < b.day)))

/-- Chronological non-strict order on datetimes. -/
def DateTime.ble (a b : DateTime) : Bool :=
  a.blt b || a == b

/-- Python truthiness of an `Optional[int]` column value
(`None` and `0` are falsy). -/
def truthy (o : Option ℕ) : Bool :=
  o.getD 0 ≠ 0

/-- Floor of a rational (the denominator is positive, so flooring division
of the numerator by the denominator). -/
def ratFloor (q : ℚ) : ℤ :=
  Int.fdiv q.num (q.den : ℤ)

/-- Nearest integer with ties to even — Python's `round(x)` (banker's
rounding, idealised over exact rationals). -/
def roundHalfEven (q : ℚ) : ℤ :=
  let f := ratFloor q
  let frac := q - (f : ℚ)
  if frac < 1/2 then f
  else if 1/2 < frac then f + 1
  else if f % 2 = 0 then f else f + 1

/-- Python's `round(x, 2)`. -/
def round2 (q : ℚ) : ℚ :=
  ((roundHalfEven (q * 100) : ℤ) : ℚ) / 100

/-- `models.User` (the columns the verified handlers read). -/
structure User where
  id : ℕ
  username : String
  email : String
  hashed_password : String
  full_name : Option String
  is_active : Bool
deriving Repr, DecidableEq

/-- `models.RefreshToken`. -/
structure RefreshToken where
  token : String
  user_id : ℕ
  expires_at : DateTime
  is_revoked : Bool
deriving Repr, DecidableEq

/-- `models.Category` (the columns the verified handlers read). -/
structure Category where
  id : ℕ
  name : String
  user_id : ℕ
deriving Repr, DecidableEq

/-- `models.CustomTransactionType` (the columns the verified handlers read). -/
structure CustomTransactionType where
  id : ℕ
  name : String
  user_id : ℕ
deriving Repr, DecidableEq

/-- `models.Transaction`. -/
structure Transaction where
  id : ℕ
  amount : ℚ
  description : Option String
  transaction_type : TransactionTypeEnum
  category_id : Option ℕ
  custom_type_id : Option ℕ
  user_id : ℕ
  transaction_date : DateTime
  notes : Option String
deriving Repr, DecidableEq

/-- `models.Budget`. -/
structure Budget where
  id : ℕ
  name : String
  amount : ℚ
  category_id : Option ℕ
  user_id : ℕ
  month : ℕ
  year : ℕ
  alert_threshold : ℚ
deriving Repr, DecidableEq

/-- `models.UserSettings` (defaults; only the owner matters to the claims). -/
structure UserSettings where
  user_id : ℕ
deriving Repr, DecidableEq

/-- The relational state.  The `next*` fields model the autoincrement
primary-key counters. -/
structure Db where
  users : List User
  refresh_tokens : List RefreshToken
  categories : List Category
  custom_types : List CustomTransactionType
  transactions : List Transaction
  budgets : List Budget
  user_settings : List UserSettings
  next_user_id : ℕ
  next_transaction_id : ℕ
  next_budget_id : ℕ
deriving Repr, DecidableEq

/-- `config.Settings.PASSWORD_MIN_LENGTH`. -/
def PASSWORD_MIN_LENGTH : ℕ := 8

/-! ## `security.py` -/

/-- The decoded payload of a JWT, as read by `verify_token` /
`get_current_user`: the `"type"` claim and the `"sub"` claim.
(`create_access_token` stores `sub` as a string holding the user id;
the model keeps it as the id itself.) -/
structure JwtPayload where
  ptype : String
  sub : Option ℕ
deriving Repr, DecidableEq

/-- Outcome of `jose.jwt.decode`: any malformed, tampered or *expired*
token raises `JWTError` (jose checks `exp` during decode), otherwise the
payload is returned.  The cryptographic decode itself is external to the
repository, so it enters the model as an abstract function
`String → DecodeResult`. -/
inductive DecodeResult where
  | invalid
  | ok (payload : JwtPayload)
deriving Repr, DecidableEq

/-- The access token issued by `security.create_access_token`: a JWT whose
payload carries `sub = str(user_id)` and `type = "access"`.  The HMAC
signing is external; the model keeps the payload. -/
structure AccessToken where
  sub : String
  ptype : String
deriving Repr, DecidableEq

/-- `security.create_access_token` applied as the handlers apply it
(`data = {"sub": user.id}`). -/
def create_access_token (user_id : ℕ) : AccessToken :=
  { sub := toString user_id, ptype := "access" }

/-- `security.create_refresh_token`.  `secrets.token_urlsafe(32)` and the
computed expiry `utcnow() + timedelta(days=REFRESH_TOKEN_EXPIRE_DAYS)` are
passed in as `token` and `expires_at`. -/
def create_refresh_token (user_id : ℕ) (token : String) (expires_at : DateTime)
    (db : Db) : String × Db :=
  let refresh_token : RefreshToken :=
    { token := token, user_id := user_id, expires_at := expires_at,
      is_revoked := false }
  (token, { db with refresh_tokens := db.refresh_tokens ++ [refresh_token] })

/-- `security.verify_token`: decode (any `JWTError`, including expiry,
becomes 401), then reject a payload whose `type` claim differs from the
expected one with 401. -/
def verify_token (decode : String → DecodeResult) (token : String)
    (token_type : String) : Except HTTPError JwtPayload :=
  match decode token with
  | .invalid =>
      .error { status_code := 401, detail := "Could not validate credentials" }
  | .ok payload =>
      if payload.ptype ≠ token_type then
        .error { status_code := 401, detail := "Invalid token type" }
      else
        .ok payload

/-- `security.get_current_user`.  `credentials = none` is the request with
no bearer token, rejected by the `HTTPBearer` dependency before the
function body runs.  Modelled from the spec: `HTTPBearer`s own code is not
part of the repository sources; the spec states that unauthenticated
requests are rejected with a standard 4xx status code, and the rejection
is modelled as 401. -/
def get_current_user (decode : String → DecodeResult)
    (credentials : Option String) (db : Db) : Except HTTPError User :=
  match credentials with
  | none =>
      .error { status_code := 401, detail := "Not authenticated" }
  | some token =>
    match verify_token decode token "access" with
    | .error e => .error e
    | .ok payload =>
      match payload.sub with
      | none =>
          .error { status_code := 401, detail := "Could not validate credentials" }
      | some user_id =>
        match db.users.find? (fun u => u.id = user_id) with
        | none =>
            .error { status_code := 401, detail := "User not found" }
        | some user =>
          if ¬ user.is_active then
            .error { status_code := 403, detail := "Inactive user" }
          else
            .ok user

/-- FastAPI dependency semantics: a handler that `Depends(get_current_user)`
runs only when the dependency succeeds; a failing dependency turns into the
HTTP error with the database untouched. -/
def withAuth (decode : String → DecodeResult) (credentials : Option String)
    (db : Db) (handler : User → Db → (Except HTTPError α) × Db) :
    (Except HTTPError α) × Db :=
  match get_current_user decode credentials db with
  | .error e => (.error e, db)
  | .ok user => handler user db

/-- `security.verify_refresh_token`: first stored token with the given
string that is not revoked; `none` when absent or expired; otherwise the
owning user looked up by id. -/
def verify_refresh_token (token : String) (now : DateTime) (db : Db) :
    Option User :=
  match db.refresh_tokens.find?
      (fun r => r.token = token ∧ r.is_revoked = false) with
  | none => none
  | some refresh_token =>
      if refresh_token.expires_at.blt now then none
      else db.users.find? (fun u => u.id = refresh_token.user_id)

/-- The mutation performed by `security.revoke_refresh_token` when the
query found a row: the found (first matching) row gets `is_revoked = True`. -/
def revokeFirst (token : String) : List RefreshToken → List RefreshToken
  | [] => []
  | r :: rs =>
      if r.token = token then { r with is_revoked := true } :: rs
      else r :: revokeFirst token rs

/-- `security.revoke_refresh_token`: look the token string up (no user
filter), mark it revoked and return `True` when found, else `False`. -/
def revoke_refresh_token (token : String) (db : Db) : Bool × Db :=
  match db.refresh_tokens.find? (fun r => r.token = token) with
  | some _ => (true, { db with refresh_tokens := revokeFirst token db.refresh_tokens })
  | none => (false, db)

/-! ## `routers/auth.py` -/

/-- The data of `schemas.UserRegister`. -/
structure UserRegister where
  username : String
  email : String
  password : String
  full_name : Option String
deriving Repr, DecidableEq

/-- Status code declared on the `/register` route decorator. -/
def register_success_status : ℕ := 201

/-- `routers/auth.register`.  Argon2 hashing (`security.hash_password`,
backed by the external `passlib` library) is abstracted as `hash_password`. -/
def register (hash_password : String → String) (user_data : UserRegister)
    (db : Db) : (Except HTTPError User) × Db :=
  if (db.users.find? (fun u => u.username = user_data.username)).isSome then
    (.error { status_code := 400, detail := "Username already registered" }, db)
  else if (db.users.find? (fun u => u.email = user_data.email)).isSome then
    (.error { status_code := 400, detail := "Email already registered" }, db)
  else if user_data.password.length < PASSWORD_MIN_LENGTH then
    (.error { status_code := 400,
              detail := "Password must be at least 8 characters" }, db)
  else
    let new_user : User :=
      { id := db.next_user_id,
        username := user_data.username,
        email := user_data.email,
        hashed_password := hash_password user_data.password,
        full_name := user_data.full_name,
        is_active := true }
    let db1 := { db with users := db.users ++ [new_user],
                         next_user_id := db.next_user_id + 1 }
    let user_settings : UserSettings := { user_id := new_user.id }
    (.ok new_user,
     { db1 with user_settings := db1.user_settings ++ [user_settings] })

/-- The body returned by `/refresh` (and `/login`): both tokens. -/
structure TokenPair where
  access_token : AccessToken
  refresh_token : String
deriving Repr, DecidableEq

/-- `routers/auth.refresh_token` (`POST /refresh`).  The freshly generated
random token string and its computed expiry are the `new_token` /
`new_expires_at` parameters. -/
def refresh_token_route (token : String) (now : DateTime) (new_token : String)
    (new_expires_at : DateTime) (db : Db) :
    (Except HTTPError TokenPair) × Db :=
  match verify_refresh_token token now db with
  | none =>
      (.error { status_code := 401, detail := "Invalid or expired refresh token" },
       db)
  | some user =>
      let access_token := create_access_token user.id
      let (new_refresh_token, db1) :=
        create_refresh_token user.id new_token new_expires_at db
      (.ok { access_token := access_token, refresh_token := new_refresh_token },
       db1)

/-- `routers/auth.logout`: revoke whatever was supplied, ignore the result,
report success.  (The `current_user` dependency has already succeeded when
the body runs; the body itself never fails.) -/
def logout (token : String) (db : Db) : (Except HTTPError String) × Db :=
  let (_, db1) := revoke_refresh_token token db
  (.ok "Successfully logged out", db1)

/-! ## `routers/budgets.py` -/

/-- The result dict of `calculate_budget_spent`. -/
structure BudgetSpentInfo where
  spent : ℚ
  remaining : ℚ
  percentage_used : ℚ
deriving Repr, DecidableEq

/-- The row filter of the spent query in `calculate_budget_spent`:
owner, expense, inside `[datetime(year, month, 1), end_date)`, and the
category filter added only when `budget.category_id` is truthy. -/
def budgetSpentRowFilter (budget : Budget) (t : Transaction) : Bool :=
  let start_date : DateTime := ⟨budget.year, budget.month, 1⟩
  let end_date : DateTime :=
    if budget.month = 12 then ⟨budget.year + 1, 1, 1⟩
    else ⟨budget.year, budget.month + 1, 1⟩
  t.user_id = budget.user_id &&
    t.transaction_type = TransactionTypeEnum.EXPENSE &&
    start_date.ble t.transaction_date &&
    t.transaction_date.blt end_date &&
    (if truthy budget.category_id then t.category_id = budget.category_id
     else true)

/-- `routers/budgets.calculate_budget_spent`.  `SUM(amount)` over no rows is
`NULL`, turned into `0.0` by `or 0.0`; over `ℚ` both collapse to the plain
list sum. -/
def calculate_budget_spent (budget : Budget) (db : Db) : BudgetSpentInfo :=
  let spent := ((db.transactions.filter (budgetSpentRowFilter budget)).map
    (fun t => t.amount)).sum
  let remaining := budget.amount - spent
  let percentage : ℚ :=
    if budget.amount > 0 then spent / budget.amount * 100 else 0
  { spent := spent, remaining := remaining,
    percentage_used := round2 percentage }

/-- The data of `schemas.BudgetCreate`. -/
structure BudgetCreate where
  name : String
  amount : ℚ
  category_id : Option ℕ
  month : ℕ
  year : ℕ
  alert_threshold : ℚ
deriving Repr, DecidableEq

/-- The data of `schemas.BudgetUpdate` (month and year are not updatable). -/
structure BudgetUpdate where
  name : Option String
  amount : Option ℚ
  category_id : Option ℕ
  alert_threshold : Option ℚ
deriving Repr, DecidableEq

/-- `routers/budgets.create_budget` (state effect and status; the response
enrichment with the spent figures is `calculate_budget_spent` above). -/
def create_budget (current_user_id : ℕ) (budget_data : BudgetCreate)
    (db : Db) : (Except HTTPError Budget) × Db :=
  if truthy budget_data.category_id ∧
      (db.categories.find? (fun c => c.id = budget_data.category_id.getD 0 ∧
        c.user_id = current_user_id)).isNone then
    (.error { status_code := 404, detail := "Category not found" }, db)
  else if (db.budgets.find? (fun b =>
      b.user_id = current_user_id ∧
      b.category_id = budget_data.category_id ∧
      b.month = budget_data.month ∧
      b.year = budget_data.year)).isSome then
    (.error { status_code := 400,
              detail := "Budget already exists for this category and period" },
     db)
  else
    let budget : Budget :=
      { id := db.next_budget_id,
        name := budget_data.name,
        amount := budget_data.amount,
        category_id := budget_data.category_id,
        user_id := current_user_id,
        month := budget_data.month,
        year := budget_data.year,
        alert_threshold := budget_data.alert_threshold }
    (.ok budget,
     { db with budgets := db.budgets ++ [budget],
               next_budget_id := db.next_budget_id + 1 })

/-- `routers/budgets.get_budget` (the 404-or-row core; read-only). -/
def get_budget (current_user_id : ℕ) (budget_id : ℕ) (db : Db) :
    Except HTTPError Budget :=
  match db.budgets.find? (fun b => b.id = budget_id ∧
      b.user_id = current_user_id) with
  | none => .error { status_code := 404, detail := "Budget not found" }
  | some budget => .ok budget

/-- The field updates `update_budget` applies to the found row
(`if ... is not None` for each updatable column). -/
def applyBudgetUpdate (budget_data : BudgetUpdate) (b : Budget) : Budget :=
  let b := match budget_data.name with
    | some v => { b with name := v } | none => b
  let b := match budget_data.amount with
    | some v => { b with amount := v } | none => b
  let b := match budget_data.category_id with
    | some v => { b with category_id := some v } | none => b
  match budget_data.alert_threshold with
    | some v => { b with alert_threshold := v } | none => b

/-- `routers/budgets.update_budget`: find by id and owner (404 otherwise),
then apply the non-`None` fields — with no duplicate re-check.  The found
row is unique (primary key), so mutating it in place is the pointwise map
over the table. -/
def update_budget (current_user_id : ℕ) (budget_id : ℕ)
    (budget_data : BudgetUpdate) (db : Db) : (Except HTTPError Budget) × Db :=
  match db.budgets.find? (fun b => b.id = budget_id ∧
      b.user_id = current_user_id) with
  | none => (.error { status_code := 404, detail := "Budget not found" }, db)
  | some budget =>
      let updated := applyBudgetUpdate budget_data budget
      (.ok updated,
       { db with budgets := db.budgets.map (fun b =>
           if b.id = budget_id ∧ b.user_id = current_user_id then
             applyBudgetUpdate budget_data b
           else b) })

/-- `routers/budgets.delete_budget`: find by id and owner (404 otherwise),
then delete the found row. -/
def delete_budget (current_user_id : ℕ) (budget_id : ℕ) (db : Db) :
    (Except HTTPError Unit) × Db :=
  match db.budgets.find? (fun b => b.id = budget_id ∧
      b.user_id = current_user_id) with
  | none => (.error { status_code := 404, detail := "Budget not found" }, db)
  | some _ =>
      (.ok (),
       { db with budgets := db.budgets.eraseP (fun b =>
           b.id = budget_id ∧ b.user_id = current_user_id) })

/-- Two budget rows that collide on the uniqueness key the spec states:
same owner, same category, same month, same year. -/
def sameBudgetKey (a b : Budget) : Bool :=
  a.user_id = b.user_id ∧ a.category_id = b.category_id ∧
    a.month = b.month ∧ a.year = b.year

/-- The uniqueness invariant: no two distinct rows of the budgets table
collide on (user, category, month, year). -/
def budgetsKeyUnique : List Budget → Bool
  | [] => true
  | b :: rest => rest.all (fun b2 => ¬ sameBudgetKey b b2) && budgetsKeyUnique rest

/-! ## `routers/transactions.py` -/

/-- The data of `schemas.TransactionCreate`. -/
structure TransactionCreate where
  amount : ℚ
  description : Option String
  transaction_type : TransactionTypeEnum
  category_id : Option ℕ
  custom_type_id : Option ℕ
  transaction_date : Option DateTime
  notes : Option String
deriving Repr, DecidableEq

/-- The data of `schemas.TransactionUpdate`. -/
structure TransactionUpdate where
  amount : Option ℚ
  description : Option String
  transaction_type : Option TransactionTypeEnum
  category_id : Option ℕ
  custom_type_id : Option ℕ
  transaction_date : Option DateTime
  notes : Option String
deriving Repr, DecidableEq

/-- Status code declared on the `POST /transactions/` route decorator. -/
def create_transaction_success_status : ℕ := 201

/-- `routers/transactions.create_transaction`.  The category must exist and
belong to the caller; the custom type must merely exist (the query has no
user filter).  `transaction_date or datetime.utcnow()` keeps the given date
when truthy, else `now`. -/
def create_transaction (current_user_id : ℕ)
    (transaction_data : TransactionCreate) (now : DateTime) (db : Db) :
    (Except HTTPError Transaction) × Db :=
  if truthy transaction_data.category_id ∧
      (db.categories.find? (fun c => c.id = transaction_data.category_id.getD 0 ∧
        c.user_id = current_user_id)).isNone then
    (.error { status_code := 404, detail := "Category not found" }, db)
  else if truthy transaction_data.custom_type_id ∧
      (db.custom_types.find? (fun ct =>
        ct.id = transaction_data.custom_type_id.getD 0)).isNone then
    (.error { status_code := 404, detail := "Custom transaction type not found" },
     db)
  else
    let transaction : Transaction :=
      { id := db.next_transaction_id,
        amount := transaction_data.amount,
        description := transaction_data.description,
        transaction_type := transaction_data.transaction_type,
        category_id := transaction_data.category_id,
        custom_type_id := transaction_data.custom_type_id,
        user_id := current_user_id,
        transaction_date := transaction_data.transaction_date.getD now,
        notes := transaction_data.notes }
    (.ok transaction,
     { db with transactions := db.transactions ++ [transaction],
               next_transaction_id := db.next_transaction_id + 1 })

/-- `routers/transactions.get_transaction` (read-only). -/
def get_transaction (current_user_id : ℕ) (transaction_id : ℕ) (db : Db) :
    Except HTTPError Transaction :=
  match db.transactions.find? (fun t => t.id = transaction_id ∧
      t.user_id = current_user_id) with
  | none => .error { status_code := 404, detail := "Transaction not found" }
  | some transaction => .ok transaction

/-- The field updates `update_transaction` applies to the found row. -/
def applyTransactionUpdate (transaction_data : TransactionUpdate)
    (t : Transaction) : Transaction :=
  let t := match transaction_data.amount with
    | some v => { t with amount := v } | none => t
  let t := match transaction_data.description with
    | some v => { t with description := some v } | none => t
  let t := match transaction_data.transaction_type with
    | some v => { t with transaction_type := v } | none => t
  let t := match transaction_data.category_id with
    | some v => { t with category_id := some v } | none => t
  let t := match transaction_data.custom_type_id with
    | some v => { t with custom_type_id := some v } | none => t
  let t := match transaction_data.transaction_date with
    | some v => { t with transaction_date := v } | none => t
  match transaction_data.notes with
    | some v => { t with notes := some v } | none => t

/-- `routers/transactions.update_transaction`: find by id and owner (404
otherwise), then apply the non-`None` fields to the found (unique) row. -/
def update_transaction (current_user_id : ℕ) (transaction_id : ℕ)
    (transaction_data : TransactionUpdate) (db : Db) :
    (Except HTTPError Transaction) × Db :=
  match db.transactions.find? (fun t => t.id = transaction_id ∧
      t.user_id = current_user_id) with
  | none => (.error { status_code := 404, detail := "Transaction not found" }, db)
  | some transaction =>
      let updated := applyTransactionUpdate transaction_data transaction
      (.ok updated,
       { db with transactions := db.transactions.map (fun t =>
           if t.id = transaction_id ∧ t.user_id = current_user_id then
             applyTransactionUpdate transaction_data t
           else t) })

/-- `routers/transactions.delete_transaction`. -/
def delete_transaction (current_user_id : ℕ) (transaction_id : ℕ) (db : Db) :
    (Except HTTPError Unit) × Db :=
  match db.transactions.find? (fun t => t.id = transaction_id ∧
      t.user_id = current_user_id) with
  | none => (.error { status_code := 404, detail := "Transaction not found" }, db)
  | some _ =>
      (.ok (),
       { db with transactions := db.transactions.eraseP (fun t =>
           t.id = transaction_id ∧ t.user_id = current_user_id) })

/-! ## `routers/dashboard.py` and `routers/reports.py` -/

/-- Decimal digit values of `n`, big-endian, without leading zeros — the
digits an unpadded `%` format prints for `n`.  Python `datetime` years
range over `MINYEAR = 1 .. MAXYEAR = 9999` and months over 1..12, so the
magnitude cases up to four digits cover every value `strftime` can be
handed here; the final branch is unreachable. -/
def natDecDigits (n : ℕ) : List ℕ :=
  if n < 10 then [n]
  else if n < 100 then [n / 10, n % 10]
  else if n < 1000 then [n / 100, n / 10 % 10, n % 10]
  else if n < 10000 then [n / 1000, n / 100 % 10, n / 10 % 10, n % 10]
  else []

/-- The characters of the unpadded decimal rendering of `n`. -/
def charsOfNat (n : ℕ) : List Char :=
  (natDecDigits n).map Nat.digitChar

/-- `d.strftime("%Y-%m")`: the year in unpadded decimal (`%Y` does not
zero-pad years below 1000 — `datetime(999, 12, 1)` renders as `"999-12"`),
a dash, then the month zero-padded to two digits (`%m`). -/
def strftimeYM (d : DateTime) : String :=
  ⟨charsOfNat d.year ++ '-' ::
    (if d.month < 10 then [Nat.digitChar 0, Nat.digitChar d.month]
     else charsOfNat d.month)⟩

/-- Lexicographic comparison of character lists by code point — how Python
compares strings when `sorted` ranks the month keys. -/
def pyCharsLt : List Char → List Char → Bool
  | [], [] => false
  | [], _ :: _ => true
  | _ :: _, [] => false
  | a :: as, b :: bs =>
      if a.toNat < b.toNat then true
      else if b.toNat < a.toNat then false
      else pyCharsLt as bs

/-- Python's `<` on strings. -/
def pyStrLt (a b : String) : Bool :=
  pyCharsLt a.data b.data

/-- The chronological index of the month a date lies in — what the spec
means by one month being more recent than another.  (Spec-side only: the
program ranks the rendered key strings, which coincides with this index
exactly when the years have four digits.) -/
def monthIndex (d : DateTime) : ℕ :=
  d.year * 100 + d.month

/-- The per-key `"income"` cell of the `monthly_data` defaultdict after the
accumulation loop of `get_dashboard` (`monthly_data[month_key]["income"] +=
t.amount` for the `INCOME` rows). -/
def month_income (transactions : List Transaction) (k : String) : ℚ :=
  transactions.foldl (fun acc t =>
    if strftimeYM t.transaction_date = k ∧
        t.transaction_type = TransactionTypeEnum.INCOME then acc + t.amount
    else acc) 0

/-- The per-key `"expense"` cell of the `monthly_data` defaultdict. -/
def month_expense (transactions : List Transaction) (k : String) : ℚ :=
  transactions.foldl (fun acc t =>
    if strftimeYM t.transaction_date = k ∧
        t.transaction_type = TransactionTypeEnum.EXPENSE then acc + t.amount
    else acc) 0

/-- One entry of the dashboard `monthly_trend` (`schemas.MonthlyData`). -/
structure MonthlyData where
  month : String
  income : ℚ
  expense : ℚ
deriving Repr, DecidableEq

/-- The month keys present in `monthly_data`: the distinct
`strftime("%Y-%m")` keys of the user transactions. -/
def monthKeys (transactions : List Transaction) : List String :=
  (transactions.map (fun t => strftimeYM t.transaction_date)).dedup

/-- The monthly-trend block of `routers/dashboard.get_dashboard` (also the
core of `routers/dashboard.monthly_trend`): group the transactions by
string month key, sort the keys by descending string order
(`sorted(monthly_data.keys(), reverse=True)` — a key comes first when it is
not lexicographically below the other), keep the first `months`, emit them
in reversed (ascending string) order. -/
def monthly_trend_of (transactions : List Transaction) (months : ℕ) :
    List MonthlyData :=
  let sorted_months :=
    (List.insertionSort (fun a b : String => pyStrLt a b = false)
      (monthKeys transactions)).take months
  sorted_months.reverse.map (fun k =>
    { month := k, income := month_income transactions k,
      expense := month_expense transactions k })

/-- `sum(b.amount for b in budgets)` over the caller budgets of the current
month/year, in `get_dashboard`. -/
def dashboard_total_budgeted (current_user_id : ℕ) (now : DateTime)
    (db : Db) : ℚ :=
  ((db.budgets.filter (fun b => b.user_id = current_user_id ∧
      b.month = now.month ∧ b.year = now.year)).map (fun b => b.amount)).sum

/-- The `monthly_expenses` aggregate of `get_dashboard`: expenses of the
caller whose date has the current month and year (`extract`). -/
def dashboard_monthly_expenses (current_user_id : ℕ) (now : DateTime)
    (db : Db) : ℚ :=
  ((db.transactions.filter (fun t => t.user_id = current_user_id ∧
      t.transaction_type = TransactionTypeEnum.EXPENSE ∧
      t.transaction_date.month = now.month ∧
      t.transaction_date.year = now.year)).map (fun t => t.amount)).sum

/-- The `budget_utilization` figure of the `get_dashboard` summary. -/
def dashboard_budget_utilization (current_user_id : ℕ) (now : DateTime)
    (db : Db) : ℚ :=
  let total_budgeted := dashboard_total_budgeted current_user_id now db
  let monthly_expenses := dashboard_monthly_expenses current_user_id now db
  round2 (if total_budgeted > 0 then monthly_expenses / total_budgeted * 100
          else 0)

/-- `sum` of the caller's expenses in the month of `routers/dashboard.get_summary`
given by (month, year). -/
def summaryMonthExpense (current_user_id : ℕ) (month year : ℕ) (db : Db) : ℚ :=
  ((db.transactions.filter (fun t => t.user_id = current_user_id ∧
      t.transaction_date.month = month ∧ t.transaction_date.year = year ∧
      t.transaction_type = TransactionTypeEnum.EXPENSE)).map
    (fun t => t.amount)).sum

/-- The previous month computed by `get_summary`
(`current_month - 1 if current_month > 1 else 12`, year rolled back). -/
def summaryLastMonth (now : DateTime) : ℕ × ℕ :=
  if now.month > 1 then (now.month - 1, now.year) else (12, now.year - 1)

/-- `last_month_expense` of `get_summary`. -/
def summary_last_month_expense (current_user_id : ℕ) (now : DateTime)
    (db : Db) : ℚ :=
  summaryMonthExpense current_user_id (summaryLastMonth now).1
    (summaryLastMonth now).2 db

/-- The `expense_change_percentage` trend of `get_summary`. -/
def summary_expense_trend (current_user_id : ℕ) (now : DateTime) (db : Db) : ℚ :=
  let month_expense := summaryMonthExpense current_user_id now.month now.year db
  let last_month_expense := summary_last_month_expense current_user_id now db
  round2 (if last_month_expense > 0 then
            (month_expense - last_month_expense) / last_month_expense * 100
          else 0)

/-- `total_income` of `routers/reports.monthly_report`: income rows of the
caller in the given month/year (`extract`). -/
def monthly_report_total_income (current_user_id : ℕ) (month year : ℕ)
    (db : Db) : ℚ :=
  ((db.transactions.filter (fun t => t.user_id = current_user_id ∧
      t.transaction_date.month = month ∧ t.transaction_date.year = year ∧
      t.transaction_type = TransactionTypeEnum.INCOME)).map
    (fun t => t.amount)).sum

/-- `total_expense` of `routers/reports.monthly_report`. -/
def monthly_report_total_expense (current_user_id : ℕ) (month year : ℕ)
    (db : Db) : ℚ :=
  ((db.transactions.filter (fun t => t.user_id = current_user_id ∧
      t.transaction_date.month = month ∧ t.transaction_date.year = year ∧
      t.transaction_type = TransactionTypeEnum.EXPENSE)).map
    (fun t => t.amount)).sum

/-- The `savings_rate` field of `routers/reports.monthly_report`
(un-rounded in the source). -/
def monthly_report_savings_rate (current_user_id : ℕ) (month year : ℕ)
    (db : Db) : ℚ :=
  let total_income := monthly_report_total_income current_user_id month year db
  let total_expense := monthly_report_total_expense current_user_id month year db
  if total_income > 0 then (total_income - total_expense) / total_income * 100
  else 0

/-! ## Specification-side definitions (for refinement claims) -/

/-- The row predicate stated by claim C3 in the spec's words: an EXPENSE
transaction of the budget owner whose date lies in
`[first day of the budget month, first day of the following month)`,
restricted to the budget category when `category_id` is set. -/
def specBudgetRowFilter (budget : Budget) (t : Transaction) : Bool :=
  let month_start : DateTime := ⟨budget.year, budget.month, 1⟩
  let next_month_start : DateTime :=
    if budget.month = 12 then ⟨budget.year + 1, 1, 1⟩
    else ⟨budget.year, budget.month + 1, 1⟩
  t.user_id = budget.user_id &&
    t.transaction_type = TransactionTypeEnum.EXPENSE &&
    month_start.ble t.transaction_date &&
    t.transaction_date.blt next_month_start &&
    (if budget.category_id.isSome then t.category_id = budget.category_id
     else true)

/-- The `spent` figure stated by claim C3: sum of the amounts of the rows
selected by `specBudgetRowFilter`. -/
def specBudgetSpent (budget : Budget) (db : Db) : ℚ :=
  ((db.transactions.filter (specBudgetRowFilter budget)).map
    (fun t => t.amount)).sum

/-! ## Helper lemmas -/

theorem round2_zero : round2 0 = 0 := by
  have h : roundHalfEven 0 = 0 := by
    simp only [roundHalfEven, ratFloor]
    norm_num
  simp only [round2, zero_mul, h, Int.cast_zero, zero_div]

theorem foldl_if_add (p : α → Bool) (g : α → ℚ) (l : List α) (a : ℚ) :
    l.foldl (fun acc x => if p x then acc + g x else acc) a =
      a + ((l.filter p).map g).sum := by
  induction l generalizing a with
  | nil => simp
  | cons x xs ih =>
      by_cases hx : p x
      · simp only [List.foldl_cons, hx, if_true, List.filter_cons_of_pos hx,
          List.map_cons, List.sum_cons, ih]
        ring
      · simp only [List.foldl_cons, hx, if_false, Bool.false_eq_true,
          List.filter_cons_of_neg hx, ih]

theorem month_income_eq (ts : List Transaction) (k : String) :
    month_income ts k =
      ((ts.filter (fun t => strftimeYM t.transaction_date = k ∧
        t.transaction_type = TransactionTypeEnum.INCOME)).map
        (fun t => t.amount)).sum := by
  simpa using foldl_if_add
    (fun t => strftimeYM t.transaction_date = k ∧
      t.transaction_type = TransactionTypeEnum.INCOME)
    (fun t => t.amount) ts 0

theorem month_expense_eq (ts : List Transaction) (k : String) :
    month_expense ts k =
      ((ts.filter (fun t => strftimeYM t.transaction_date = k ∧
        t.transaction_type = TransactionTypeEnum.EXPENSE)).map
        (fun t => t.amount)).sum := by
  simpa using foldl_if_add
    (fun t => strftimeYM t.transaction_date = k ∧
      t.transaction_type = TransactionTypeEnum.EXPENSE)
    (fun t => t.amount) ts 0

theorem budgetsKeyUnique_iff (l : List Budget) :
    budgetsKeyUnique l = true ↔
      List.Pairwise (fun a b => sameBudgetKey a b = false) l := by
  induction l with
  | nil => simp [budgetsKeyUnique]
  | cons b rest ih =>
      simp only [budgetsKeyUnique, Bool.and_eq_true, List.all_eq_true,
        List.pairwise_cons, ih]
      constructor
      · rintro ⟨hall, hrest⟩
        exact ⟨fun b2 hb2 => by simpa using hall b2 hb2, hrest⟩
      · rintro ⟨hall, hrest⟩
        exact ⟨fun b2 hb2 => by simpa using hall b2 hb2, hrest⟩

theorem budgetsKeyUnique_append_singleton (l : List Budget) (x : Budget)
    (hl : budgetsKeyUnique l = true)
    (hx : ∀ b ∈ l, sameBudgetKey b x = false) :
    budgetsKeyUnique (l ++ [x]) = true := by
  rw [budgetsKeyUnique_iff] at hl ⊢
  rw [List.pairwise_append]
  refine ⟨hl, by simp, ?_⟩
  intro a ha b hb
  simp only [List.mem_singleton] at hb
  subst hb
  exact hx a ha

theorem budgetsKeyUnique_sublist {l₁ l₂ : List Budget}
    (hs : l₁.Sublist l₂) (h : budgetsKeyUnique l₂ = true) :
    budgetsKeyUnique l₁ = true := by
  rw [budgetsKeyUnique_iff] at h ⊢
  exact h.sublist hs

/-! ## Claim theorems -/

/-- C9: every percentage computation in the aggregation routines is guarded
against a zero denominator: `percentage_used` is 0 when the budget amount
is not positive, the dashboard budget utilization is 0 when the total
budgeted is not positive, the monthly report's `savings_rate` is 0 when the
total income is not positive, and the summary expense trend is 0 when last
month's expense is not positive.  (In the model division is total, so the
guards are exactly the `if denominator > 0` conditionals of the source.) -/
theorem C9_division_guards :
    (∀ (budget : Budget) (db : Db), budget.amount ≤ 0 →
      (calculate_budget_spent budget db).percentage_used = 0) ∧
    (∀ (uid : ℕ) (now : DateTime) (db : Db),
      dashboard_total_budgeted uid now db ≤ 0 →
      dashboard_budget_utilization uid now db = 0) ∧
    (∀ (uid month year : ℕ) (db : Db),
      monthly_report_total_income uid month year db ≤ 0 →
      monthly_report_savings_rate uid month year db = 0) ∧
    (∀ (uid : ℕ) (now : DateTime) (db : Db),
      summary_last_month_expense uid now db ≤ 0 →
      summary_expense_trend uid now db = 0) := by
  refine ⟨?_, ?_, ?_, ?_⟩
  · intro budget db h
    simp only [calculate_budget_spent, not_lt.mpr h, if_false, round2_zero]
  · intro uid now db h
    simp only [dashboard_budget_utilization, not_lt.mpr h, if_false,
      round2_zero]
  · intro uid month year db h
    simp only [monthly_report_savings_rate, not_lt.mpr h, if_false]
  · intro uid now db h
    simp only [summary_expense_trend, summary_last_month_expense] at h ⊢
    simp only [not_lt.mpr h, if_false, round2_zero]

/-- A budget with a non-positive amount, for the C9 witness. -/
def zeroBudget : Budget :=
  { id := 1, name := "b", amount := 0, category_id := none, user_id := 1,
    month := 1, year := 2025, alert_threshold := 80 }

/-- The empty database, used by several witnesses. -/
def emptyDb : Db :=
  { users := [], refresh_tokens := [], categories := [], custom_types := [],
    transactions := [], budgets := [], user_settings := [],
    next_user_id := 1, next_transaction_id := 1, next_budget_id := 1 }

/-- Witness for C9 at concrete inputs: on the empty database every guarded
denominator is 0, and each guarded percentage evaluates to 0. -/
theorem C9_division_guards_witness :
    (calculate_budget_spent zeroBudget emptyDb).percentage_used = 0 ∧
    dashboard_budget_utilization 1 ⟨2025, 3, 14⟩ emptyDb = 0 ∧
    monthly_report_savings_rate 1 3 2025 emptyDb = 0 ∧
    summary_expense_trend 1 ⟨2025, 3, 14⟩ emptyDb = 0 :=
  ⟨C9_division_guards.1 zeroBudget emptyDb (le_refl 0),
   C9_division_guards.2.1 1 ⟨2025, 3, 14⟩ emptyDb (le_refl 0),
   C9_division_guards.2.2.1 1 3 2025 emptyDb (le_refl 0),
   C9_division_guards.2.2.2 1 ⟨2025, 3, 14⟩ emptyDb (le_refl 0)⟩

/-- C3: `calculate_budget_spent` returns `spent` equal to the sum of the
amounts of the owner's EXPENSE transactions dated in
`[first day of the budget month, first day of the following month)`,
restricted to the budget category when it is set; `remaining` equal to
`amount - spent`; and `percentage_used` equal to `spent / amount * 100`
rounded to 2 decimals when `amount > 0`, and 0 otherwise.  The hypothesis
excludes the unreachable column value `category_id = 0` (autoincrement ids
are positive), where Python truthiness and "is set" would part ways. -/
theorem C3_calculate_budget_spent_spec (budget : Budget) (db : Db)
    (h : budget.category_id ≠ some 0) :
    calculate_budget_spent budget db =
      { spent := specBudgetSpent budget db,
        remaining := budget.amount - specBudgetSpent budget db,
        percentage_used :=
          if budget.amount > 0 then
            round2 (specBudgetSpent budget db / budget.amount * 100)
          else 0 } := by
  have hfilter : budgetSpentRowFilter budget = specBudgetRowFilter budget := by
    funext t
    simp only [budgetSpentRowFilter, specBudgetRowFilter]
    cases hc : budget.category_id with
    | none => simp [truthy]
    | some c =>
        have hc0 : c ≠ 0 := fun h0 => h (by rw [hc, h0])
        simp [truthy, hc0]
  have hspent : ((db.transactions.filter (budgetSpentRowFilter budget)).map
      (fun t => t.amount)).sum = specBudgetSpent budget db := by
    rw [specBudgetSpent, hfilter]
  simp only [calculate_budget_spent, hspent]
  by_cases hamt : budget.amount > 0
  · simp [hamt]
  · simp [hamt, round2_zero]

/-- Witness for C3: the concrete budget has `category_id = none ≠ some 0`,
and the equation holds at it. -/
theorem C3_calculate_budget_spent_spec_witness :
    zeroBudget.category_id ≠ some 0 ∧
    calculate_budget_spent zeroBudget emptyDb =
      { spent := specBudgetSpent zeroBudget emptyDb,
        remaining := zeroBudget.amount - specBudgetSpent zeroBudget emptyDb,
        percentage_used :=
          if zeroBudget.amount > 0 then
            round2 (specBudgetSpent zeroBudget emptyDb / zeroBudget.amount * 100)
          else 0 } :=
  ⟨by decide, C3_calculate_budget_spent_spec zeroBudget emptyDb (by decide)⟩

/-- C4: registration with a taken username or email fails with 400 and
leaves the database unchanged (no user row, no settings row); registration
with a fresh username and email and a password of at least
`PASSWORD_MIN_LENGTH` characters appends exactly one user (whose stored
credential is the hash of the password) and one default settings row for
it, and the route's declared success status is 201. -/
theorem C4_register_spec (hash_password : String → String)
    (user_data : UserRegister) (db : Db) :
    ((db.users.find? (fun u => u.username = user_data.username)).isSome →
      register hash_password user_data db =
        (.error { status_code := 400, detail := "Username already registered" },
         db)) ∧
    (db.users.find? (fun u => u.username = user_data.username) = none →
      (db.users.find? (fun u => u.email = user_data.email)).isSome →
      register hash_password user_data db =
        (.error { status_code := 400, detail := "Email already registered" },
         db)) ∧
    (db.users.find? (fun u => u.username = user_data.username) = none →
      db.users.find? (fun u => u.email = user_data.email) = none →
      PASSWORD_MIN_LENGTH ≤ user_data.password.length →
      register hash_password user_data db =
        (.ok { id := db.next_user_id,
               username := user_data.username,
               email := user_data.email,
               hashed_password := hash_password user_data.password,
               full_name := user_data.full_name,
               is_active := true },
         { db with
             users := db.users ++
               [{ id := db.next_user_id,
                  username := user_data.username,
                  email := user_data.email,
                  hashed_password := hash_password user_data.password,
                  full_name := user_data.full_name,
                  is_active := true }],
             user_settings := db.user_settings ++ [{ user_id := db.next_user_id }],
             next_user_id := db.next_user_id + 1 }) ∧
      register_success_status = 201) := by
  refine ⟨?_, ?_, ?_⟩
  · intro h
    simp only [register, h, if_true]
  · intro h1 h2
    simp only [register, h1, Option.isSome_none, Bool.false_eq_true, if_false,
      h2, if_true]
  · intro h1 h2 h3
    have h4 : ¬ user_data.password.length < PASSWORD_MIN_LENGTH := not_lt.mpr h3
    simp only [register, h1, h2, Option.isSome_none, Bool.false_eq_true,
      if_false, h4, register_success_status, and_true]

/-- The abstracted Argon2 hash used by concrete witnesses. -/
def hashPasswordModel : String → String := fun s => "argon2:" ++ s

/-- The registration request used by the C4 witness. -/
def registerData : UserRegister :=
  { username := "alice", email := "alice@example.com",
    password := "password123", full_name := none }

/-- Witness for C4: on the empty database the username and email are fresh
and the password is long enough, and `register` creates the user plus its
settings row. -/
theorem C4_register_spec_witness :
    emptyDb.users.find? (fun u => u.username = registerData.username) = none ∧
    emptyDb.users.find? (fun u => u.email = registerData.email) = none ∧
    PASSWORD_MIN_LENGTH ≤ registerData.password.length ∧
    (register hashPasswordModel registerData emptyDb =
      (.ok { id := emptyDb.next_user_id,
             username := registerData.username,
             email := registerData.email,
             hashed_password := hashPasswordModel registerData.password,
             full_name := registerData.full_name,
             is_active := true },
       { emptyDb with
           users := emptyDb.users ++
             [{ id := emptyDb.next_user_id,
                username := registerData.username,
                email := registerData.email,
                hashed_password := hashPasswordModel registerData.password,
                full_name := registerData.full_name,
                is_active := true }],
           user_settings := emptyDb.user_settings ++
             [{ user_id := emptyDb.next_user_id }],
           next_user_id := emptyDb.next_user_id + 1 }) ∧
      register_success_status = 201) :=
  ⟨rfl, rfl, by decide,
   (C4_register_spec hashPasswordModel registerData emptyDb).2.2 rfl rfl
     (by decide)⟩

/-- The `unique=True` constraint on the `token` column of the
`refresh_tokens` table, as a decidable predicate on the model state. -/
def tokensDistinct : List RefreshToken → Bool
  | [] => true
  | r :: rs => rs.all (fun x => x.token ≠ r.token) && tokensDistinct rs

theorem revokeFirst_marks (token : String) (l : List RefreshToken)
    (hd : tokensDistinct l = true) :
    ∀ r ∈ revokeFirst token l, r.token = token → r.is_revoked = true := by
  induction l with
  | nil => intro r hr; simp [revokeFirst] at hr
  | cons a rest ih =>
      simp only [tokensDistinct, Bool.and_eq_true, List.all_eq_true] at hd
      obtain ⟨hall, hrest⟩ := hd
      intro r hr hrt
      by_cases ha : a.token = token
      · simp only [revokeFirst, ha, if_true, List.mem_cons] at hr
        rcases hr with hr | hr
        · subst hr; rfl
        · have := hall r hr
          simp only [decide_eq_true_eq] at this
          exact absurd (hrt.trans ha.symm) this
      · simp only [revokeFirst, ha, if_false, List.mem_cons] at hr
        rcases hr with hr | hr
        · subst hr; exact absurd hrt ha
        · exact ih hrest r hr hrt

/-- C10: `revoke_refresh_token` looks the token up with no user filter,
marks the stored row with that string revoked, and returns `True` exactly
when such a row exists; `logout` ignores the result and reports success for
any supplied refresh token, including a nonexistent one or one owned by a
different user.  The distinctness hypothesis is the `unique=True` column
constraint of the table. -/
theorem C10_revoke_and_logout (token : String) (db : Db) :
    ((revoke_refresh_token token db).1 = true ↔
      ∃ r ∈ db.refresh_tokens, r.token = token) ∧
    (tokensDistinct db.refresh_tokens = true →
      ∀ r ∈ (revoke_refresh_token token db).2.refresh_tokens,
        r.token = token → r.is_revoked = true) ∧
    (logout token db).1 = .ok "Successfully logged out" := by
  refine ⟨?_, ?_, ?_⟩
  · cases h : db.refresh_tokens.find? (fun r => r.token = token) with
    | some a =>
        simp only [revoke_refresh_token, h, true_iff]
        refine ⟨a, List.mem_of_find?_eq_some h, ?_⟩
        have := List.find?_some h
        simpa using this
    | none =>
        simp only [revoke_refresh_token, h, Bool.false_eq_true, false_iff]
        rintro ⟨r, hr, hrt⟩
        have := List.find?_eq_none.mp h r hr
        simp [hrt] at this
  · intro hd
    cases h : db.refresh_tokens.find? (fun r => r.token = token) with
    | some a =>
        simp only [revoke_refresh_token, h]
        exact revokeFirst_marks token db.refresh_tokens hd
    | none =>
        simp only [revoke_refresh_token, h]
        intro r hr hrt
        have := List.find?_eq_none.mp h r hr
        simp [hrt] at this
  · simp only [logout]

/-- A database holding refresh tokens of two different users, for the C10
witness; the caller in the scenario is user 1, the first token belongs to
user 2. -/
def tokenDb : Db :=
  { emptyDb with refresh_tokens :=
      [{ token := "tok-a", user_id := 2, expires_at := ⟨2027, 1, 1⟩,
         is_revoked := false },
       { token := "tok-b", user_id := 1, expires_at := ⟨2027, 1, 1⟩,
         is_revoked := false }] }

/-- Witness for C10 at concrete inputs: revoking user 2's token string
returns `True` and marks that row revoked even though the matching row
belongs to another user, and logging out with an unknown token string still
reports success. -/
theorem C10_revoke_and_logout_witness :
    (revoke_refresh_token "tok-a" tokenDb).1 = true ∧
    (∀ r ∈ (revoke_refresh_token "tok-a" tokenDb).2.refresh_tokens,
      r.token = "tok-a" → r.is_revoked = true) ∧
    (logout "no-such-token" tokenDb).1 = .ok "Successfully logged out" :=
  ⟨(C10_revoke_and_logout "tok-a" tokenDb).1.mpr
     ⟨{ token := "tok-a", user_id := 2, expires_at := ⟨2027, 1, 1⟩,
        is_revoked := false }, by decide, rfl⟩,
   (C10_revoke_and_logout "tok-a" tokenDb).2.1 (by decide),
   (C10_revoke_and_logout "no-such-token" tokenDb).2.2⟩

/-- C8: a transaction or budget row that exists but belongs to a different
user is invisible to the caller's get/update/delete: each operation fails
with 404 and returns the database unchanged.  The hypotheses say a row with
the requested id exists and every row carrying that id (ids are unique
primary keys) belongs to someone other than the caller. -/
theorem C8_ownership_scoping (uid transaction_id budget_id : ℕ) (db : Db)
    (transaction_data : TransactionUpdate) (budget_data : BudgetUpdate)
    (htex : ∃ t ∈ db.transactions, t.id = transaction_id)
    (htown : ∀ t ∈ db.transactions, t.id = transaction_id → t.user_id ≠ uid)
    (hbex : ∃ b ∈ db.budgets, b.id = budget_id)
    (hbown : ∀ b ∈ db.budgets, b.id = budget_id → b.user_id ≠ uid) :
    get_transaction uid transaction_id db =
      .error { status_code := 404, detail := "Transaction not found" } ∧
    update_transaction uid transaction_id transaction_data db =
      (.error { status_code := 404, detail := "Transaction not found" }, db) ∧
    delete_transaction uid transaction_id db =
      (.error { status_code := 404, detail := "Transaction not found" }, db) ∧
    get_budget uid budget_id db =
      .error { status_code := 404, detail := "Budget not found" } ∧
    update_budget uid budget_id budget_data db =
      (.error { status_code := 404, detail := "Budget not found" }, db) ∧
    delete_budget uid budget_id db =
      (.error { status_code := 404, detail := "Budget not found" }, db) := by
  have hfT : db.transactions.find?
      (fun t => t.id = transaction_id ∧ t.user_id = uid) = none := by
    refine List.find?_eq_none.mpr (fun t ht => ?_)
    simp only [decide_eq_true_eq, not_and]
    intro h1
    exact htown t ht h1
  have hfB : db.budgets.find?
      (fun b => b.id = budget_id ∧ b.user_id = uid) = none := by
    refine List.find?_eq_none.mpr (fun b hb => ?_)
    simp only [decide_eq_true_eq, not_and]
    intro h1
    exact hbown b hb h1
  refine ⟨?_, ?_, ?_, ?_, ?_, ?_⟩
  · simp only [get_transaction, hfT]
  · simp only [update_transaction, hfT]
  · simp only [delete_transaction, hfT]
  · simp only [get_budget, hfB]
  · simp only [update_budget, hfB]
  · simp only [delete_budget, hfB]

/-- A database holding one transaction and one budget, both owned by
user 2, for the C8 witness (the caller is user 1). -/
def otherOwnerDb : Db :=
  { emptyDb with
      transactions :=
        [{ id := 7, amount := 1, description := none,
           transaction_type := .EXPENSE, category_id := none,
           custom_type_id := none, user_id := 2,
           transaction_date := ⟨2025, 3, 14⟩, notes := none }],
      budgets :=
        [{ id := 9, name := "b", amount := 1, category_id := none,
           user_id := 2, month := 3, year := 2025, alert_threshold := 80 }] }

/-- The no-op update payloads used by the C8 witness. -/
def emptyTransactionUpdate : TransactionUpdate :=
  { amount := none, description := none, transaction_type := none,
    category_id := none, custom_type_id := none, transaction_date := none,
    notes := none }

/-- The no-op budget update payload used by the C8 witness. -/
def emptyBudgetUpdate : BudgetUpdate :=
  { name := none, amount := none, category_id := none,
    alert_threshold := none }

/-- Witness for C8 at concrete inputs: user 1 requests user 2's
transaction 7 and budget 9; every operation 404s and leaves the database
as it was. -/
theorem C8_ownership_scoping_witness :
    get_transaction 1 7 otherOwnerDb =
      .error { status_code := 404, detail := "Transaction not found" } ∧
    update_transaction 1 7 emptyTransactionUpdate otherOwnerDb =
      (.error { status_code := 404, detail := "Transaction not found" },
       otherOwnerDb) ∧
    delete_transaction 1 7 otherOwnerDb =
      (.error { status_code := 404, detail := "Transaction not found" },
       otherOwnerDb) ∧
    get_budget 1 9 otherOwnerDb =
      .error { status_code := 404, detail := "Budget not found" } ∧
    update_budget 1 9 emptyBudgetUpdate otherOwnerDb =
      (.error { status_code := 404, detail := "Budget not found" },
       otherOwnerDb) ∧
    delete_budget 1 9 otherOwnerDb =
      (.error { status_code := 404, detail := "Budget not found" },
       otherOwnerDb) :=
  C8_ownership_scoping 1 7 9 otherOwnerDb emptyTransactionUpdate
    emptyBudgetUpdate
    ⟨otherOwnerDb.transactions.head (by decide), by decide, by decide⟩
    (by decide)
    ⟨otherOwnerDb.budgets.head (by decide), by decide, by decide⟩
    (by decide)

/-- C6: on an authenticated endpoint a missing bearer token, an
undecodable (malformed / bad-signature / expired) token, a wrong-type
token, a token with no subject, and a token whose subject matches no user
are each rejected with 401, and a valid token for an inactive user is
rejected with 403; in every such case the handler does not run and the
database is returned unchanged.  (The missing-credentials case is the
`HTTPBearer` dependency, modelled from the spec; jose folds expiry into
`JWTError`, hence into the undecodable case.) -/
theorem C6_auth_rejection {α : Type} (decode : String → DecodeResult)
    (db : Db) (handler : User → Db → (Except HTTPError α) × Db) :
    (withAuth decode none db handler =
      (.error { status_code := 401, detail := "Not authenticated" }, db)) ∧
    (∀ token, decode token = .invalid →
      withAuth decode (some token) db handler =
        (.error { status_code := 401, detail := "Could not validate credentials" },
         db)) ∧
    (∀ token payload, decode token = .ok payload → payload.ptype ≠ "access" →
      withAuth decode (some token) db handler =
        (.error { status_code := 401, detail := "Invalid token type" }, db)) ∧
    (∀ token payload, decode token = .ok payload → payload.ptype = "access" →
      payload.sub = none →
      withAuth decode (some token) db handler =
        (.error { status_code := 401, detail := "Could not validate credentials" },
         db)) ∧
    (∀ token payload user_id, decode token = .ok payload →
      payload.ptype = "access" → payload.sub = some user_id →
      db.users.find? (fun u => u.id = user_id) = none →
      withAuth decode (some token) db handler =
        (.error { status_code := 401, detail := "User not found" }, db)) ∧
    (∀ token payload user_id user, decode token = .ok payload →
      payload.ptype = "access" → payload.sub = some user_id →
      db.users.find? (fun u => u.id = user_id) = some user →
      user.is_active = false →
      withAuth decode (some token) db handler =
        (.error { status_code := 403, detail := "Inactive user" }, db)) := by
  refine ⟨rfl, ?_, ?_, ?_, ?_, ?_⟩
  · intro token h
    simp only [withAuth, get_current_user, verify_token, h]
  · intro token payload h hp
    simp only [withAuth, get_current_user, verify_token, h, hp,
      ne_eq, not_false_eq_true, if_true]
  · intro token payload h hp hs
    simp only [withAuth, get_current_user, verify_token, h, hp, hs,
      ne_eq, not_true_eq_false, if_false]
  · intro token payload user_id h hp hs hf
    simp only [withAuth, get_current_user, verify_token, h, hp, hs, hf,
      ne_eq, not_true_eq_false, if_false]
  · intro token payload user_id user h hp hs hf hu
    simp [withAuth, get_current_user, verify_token, h, hp, hs, hf, hu]

/-- An abstract JWT decoder covering every rejection case, for the C6
witness. -/
def decodeModel : String → DecodeResult := fun token =>
  if token = "garbled-or-expired" then .invalid
  else if token = "refresh-type" then .ok { ptype := "refresh", sub := some 1 }
  else if token = "no-subject" then .ok { ptype := "access", sub := none }
  else if token = "ghost-user" then .ok { ptype := "access", sub := some 99 }
  else if token = "inactive-user" then .ok { ptype := "access", sub := some 3 }
  else .invalid

/-- A database whose only user (id 3) is inactive, for the C6 witness. -/
def inactiveUserDb : Db :=
  { emptyDb with users :=
      [{ id := 3, username := "carol", email := "carol@example.com",
         hashed_password := "h", full_name := none, is_active := false }] }

/-- A handler that would succeed if it ever ran, for the C6 witness. -/
def probeHandler : User → Db → (Except HTTPError Unit) × Db :=
  fun _ db => (.ok (), db)

/-- Witness for C6 at concrete inputs: each rejection case fires with the
stated status and leaves the database untouched. -/
theorem C6_auth_rejection_witness :
    (withAuth decodeModel none inactiveUserDb probeHandler =
      (.error { status_code := 401, detail := "Not authenticated" },
       inactiveUserDb)) ∧
    (withAuth decodeModel (some "garbled-or-expired") inactiveUserDb
        probeHandler =
      (.error { status_code := 401, detail := "Could not validate credentials" },
       inactiveUserDb)) ∧
    (withAuth decodeModel (some "refresh-type") inactiveUserDb probeHandler =
      (.error { status_code := 401, detail := "Invalid token type" },
       inactiveUserDb)) ∧
    (withAuth decodeModel (some "no-subject") inactiveUserDb probeHandler =
      (.error { status_code := 401, detail := "Could not validate credentials" },
       inactiveUserDb)) ∧
    (withAuth decodeModel (some "ghost-user") inactiveUserDb probeHandler =
      (.error { status_code := 401, detail := "User not found" },
       inactiveUserDb)) ∧
    (withAuth decodeModel (some "inactive-user") inactiveUserDb probeHandler =
      (.error { status_code := 403, detail := "Inactive user" },
       inactiveUserDb)) :=
  ⟨(C6_auth_rejection decodeModel inactiveUserDb probeHandler).1,
   (C6_auth_rejection decodeModel inactiveUserDb probeHandler).2.1
     "garbled-or-expired" rfl,
   (C6_auth_rejection decodeModel inactiveUserDb probeHandler).2.2.1
     "refresh-type" { ptype := "refresh", sub := some 1 } rfl (by decide),
   (C6_auth_rejection decodeModel inactiveUserDb probeHandler).2.2.2.1
     "no-subject" { ptype := "access", sub := none } rfl rfl rfl,
   (C6_auth_rejection decodeModel inactiveUserDb probeHandler).2.2.2.2.1
     "ghost-user" { ptype := "access", sub := some 99 } 99 rfl rfl rfl rfl,
   (C6_auth_rejection decodeModel inactiveUserDb probeHandler).2.2.2.2.2
     "inactive-user" { ptype := "access", sub := some 3 } 3
     { id := 3, username := "carol", email := "carol@example.com",
       hashed_password := "h", full_name := none, is_active := false }
     rfl rfl rfl rfl rfl⟩

/-- C7: a successful `create_transaction` followed by `get_transaction`
with the returned id and the same user returns the created row unchanged:
amount, description, type, category, custom type, date and notes all equal
the request's values (the date defaulting to `utcnow()` when absent).  The
freshness hypothesis is the autoincrement primary-key invariant: no stored
row already carries the id about to be assigned. -/
theorem C7_create_get_roundtrip (uid : ℕ) (transaction_data : TransactionCreate)
    (now : DateTime) (db : Db)
    (hfresh : ∀ t ∈ db.transactions, t.id ≠ db.next_transaction_id)
    (t : Transaction) (db1 : Db)
    (hc : create_transaction uid transaction_data now db = (.ok t, db1)) :
    get_transaction uid t.id db1 = .ok t ∧
    t.amount = transaction_data.amount ∧
    t.description = transaction_data.description ∧
    t.transaction_type = transaction_data.transaction_type ∧
    t.category_id = transaction_data.category_id ∧
    t.custom_type_id = transaction_data.custom_type_id ∧
    t.transaction_date = transaction_data.transaction_date.getD now ∧
    t.notes = transaction_data.notes := by
  simp only [create_transaction] at hc
  split at hc
  · simp at hc
  · split at hc
    · simp at hc
    · rw [Prod.mk.injEq] at hc
      obtain ⟨hok, hdb⟩ := hc
      simp only [Except.ok.injEq] at hok
      subst hok
      subst hdb
      have hnone : db.transactions.find?
          (fun x => x.id = db.next_transaction_id ∧ x.user_id = uid) = none := by
        refine List.find?_eq_none.mpr (fun x hx => ?_)
        simp only [decide_eq_true_eq, not_and]
        intro h1
        exact absurd h1 (hfresh x hx)
      refine ⟨?_, rfl, rfl, rfl, rfl, rfl, rfl, rfl⟩
      simp only [get_transaction, List.find?_append, hnone, Option.none_or]
      rw [List.find?_cons_of_pos]
      simp

/-- The creation request used by the C7 witness. -/
def createData : TransactionCreate :=
  { amount := 1, description := some "groceries",
    transaction_type := .EXPENSE, category_id := none,
    custom_type_id := none, transaction_date := some ⟨2025, 3, 14⟩,
    notes := some "weekly" }

/-- The row `create_transaction` inserts for `createData` on the empty
database. -/
def createdTxn : Transaction :=
  { id := 1, amount := 1, description := some "groceries",
    transaction_type := .EXPENSE, category_id := none,
    custom_type_id := none, user_id := 1,
    transaction_date := ⟨2025, 3, 14⟩, notes := some "weekly" }

/-- The database state after the C7 witness creation. -/
def createdDb : Db :=
  { emptyDb with transactions := [createdTxn], next_transaction_id := 2 }

/-- Witness for C7 at concrete inputs: creating on the empty database and
fetching the returned id gives back the same row. -/
theorem C7_create_get_roundtrip_witness :
    (∀ t ∈ emptyDb.transactions, t.id ≠ emptyDb.next_transaction_id) ∧
    create_transaction 1 createData ⟨2025, 4, 1⟩ emptyDb =
      (.ok createdTxn, createdDb) ∧
    get_transaction 1 createdTxn.id createdDb = .ok createdTxn ∧
    createdTxn.amount = createData.amount :=
  ⟨by decide, rfl,
   (C7_create_get_roundtrip 1 createData ⟨2025, 4, 1⟩ emptyDb (by decide)
     createdTxn createdDb rfl).1,
   (C7_create_get_roundtrip 1 createData ⟨2025, 4, 1⟩ emptyDb (by decide)
     createdTxn createdDb rfl).2.1⟩

/-- A database with one active user owning one valid (stored, unrevoked,
unexpired at the scenario time 2026-01-01) refresh token. -/
def refreshDb : Db :=
  { emptyDb with
      users :=
        [{ id := 1, username := "alice", email := "alice@example.com",
           hashed_password := "h", full_name := none, is_active := true }],
      refresh_tokens :=
        [{ token := "rt-0", user_id := 1, expires_at := ⟨2027, 1, 1⟩,
           is_revoked := false }] }

/-- C1 counterexample: the `/refresh` handler issues new tokens but never
revokes the presented refresh token.  At this concrete valid token the
first refresh succeeds, the presented token is still stored un-revoked
afterwards, and a second refresh with the very same token succeeds as well
instead of failing with 401 — refuting the claimed rotation. -/
theorem C1_refresh_rotation_counterexample :
    refreshDb.refresh_tokens.find?
        (fun r => r.token = "rt-0" ∧ r.is_revoked = false) =
      some { token := "rt-0", user_id := 1, expires_at := ⟨2027, 1, 1⟩,
             is_revoked := false } ∧
    (refresh_token_route "rt-0" ⟨2026, 1, 1⟩ "rt-1" ⟨2026, 1, 8⟩
        refreshDb).1 =
      .ok { access_token := { sub := "1", ptype := "access" },
            refresh_token := "rt-1" } ∧
    (refresh_token_route "rt-0" ⟨2026, 1, 1⟩ "rt-1" ⟨2026, 1, 8⟩
        refreshDb).2.refresh_tokens.find? (fun r => r.token = "rt-0") =
      some { token := "rt-0", user_id := 1, expires_at := ⟨2027, 1, 1⟩,
             is_revoked := false } ∧
    (refresh_token_route "rt-0" ⟨2026, 1, 1⟩ "rt-2" ⟨2026, 1, 8⟩
        (refresh_token_route "rt-0" ⟨2026, 1, 1⟩ "rt-1" ⟨2026, 1, 8⟩
          refreshDb).2).1 =
      .ok { access_token := { sub := "1", ptype := "access" },
            refresh_token := "rt-2" } :=
  ⟨rfl, rfl, rfl, rfl⟩

/-- C1 (amended): for every refresh request presenting a refresh token
that is stored, not revoked and not expired, `/refresh` returns a new
access token for the owner and a freshly generated refresh token — but it
does not rotate the presented token: the stored rows are only appended to,
so the presented token remains un-revoked, and a second refresh request
with the same token succeeds as well. -/
theorem C1_refresh_valid_token (token : String) (now : DateTime)
    (new_token1 new_token2 : String) (exp1 exp2 : DateTime) (db : Db)
    (r : RefreshToken) (u : User)
    (hfind : db.refresh_tokens.find?
      (fun x => x.token = token ∧ x.is_revoked = false) = some r)
    (hexp : r.expires_at.blt now = false)
    (huser : db.users.find? (fun x => x.id = r.user_id) = some u) :
    refresh_token_route token now new_token1 exp1 db =
      (.ok { access_token := create_access_token u.id,
             refresh_token := new_token1 },
       { db with refresh_tokens := db.refresh_tokens ++
           [{ token := new_token1, user_id := u.id, expires_at := exp1,
              is_revoked := false }] }) ∧
    (refresh_token_route token now new_token2 exp2
        (refresh_token_route token now new_token1 exp1 db).2).1 =
      .ok { access_token := create_access_token u.id,
            refresh_token := new_token2 } := by
  have h1 : refresh_token_route token now new_token1 exp1 db =
      (.ok { access_token := create_access_token u.id,
             refresh_token := new_token1 },
       { db with refresh_tokens := db.refresh_tokens ++
           [{ token := new_token1, user_id := u.id, expires_at := exp1,
              is_revoked := false }] }) := by
    simp only [refresh_token_route, verify_refresh_token, hfind, hexp,
      Bool.false_eq_true, if_false, huser, create_refresh_token]
  refine ⟨h1, ?_⟩
  rw [h1]
  have h2 : List.find? (fun x => x.token = token ∧ x.is_revoked = false)
      (db.refresh_tokens ++
        [({ token := new_token1, user_id := u.id, expires_at := exp1,
            is_revoked := false } : RefreshToken)]) = some r := by
    rw [List.find?_append, hfind]
    rfl
  simp only [refresh_token_route, verify_refresh_token, h2, hexp,
    Bool.false_eq_true, if_false, huser, create_refresh_token]

/-- Witness for C1 (amended) at the concrete valid token of `refreshDb`. -/
theorem C1_refresh_valid_token_witness :
    refreshDb.refresh_tokens.find?
        (fun x => x.token = "rt-0" ∧ x.is_revoked = false) =
      some { token := "rt-0", user_id := 1, expires_at := ⟨2027, 1, 1⟩,
             is_revoked := false } ∧
    (refresh_token_route "rt-0" ⟨2026, 1, 1⟩ "rt-1" ⟨2026, 1, 8⟩ refreshDb =
      (.ok { access_token := create_access_token 1, refresh_token := "rt-1" },
       { refreshDb with refresh_tokens := refreshDb.refresh_tokens ++
           [{ token := "rt-1", user_id := 1, expires_at := ⟨2026, 1, 8⟩,
              is_revoked := false }] }) ∧
     (refresh_token_route "rt-0" ⟨2026, 1, 1⟩ "rt-2" ⟨2026, 1, 8⟩
        (refresh_token_route "rt-0" ⟨2026, 1, 1⟩ "rt-1" ⟨2026, 1, 8⟩
          refreshDb).2).1 =
      .ok { access_token := create_access_token 1, refresh_token := "rt-2" }) :=
  ⟨rfl,
   C1_refresh_valid_token "rt-0" ⟨2026, 1, 1⟩ "rt-1" "rt-2" ⟨2026, 1, 8⟩
     ⟨2026, 1, 8⟩ refreshDb
     { token := "rt-0", user_id := 1, expires_at := ⟨2027, 1, 1⟩,
       is_revoked := false }
     { id := 1, username := "alice", email := "alice@example.com",
       hashed_password := "h", full_name := none, is_active := true }
     rfl rfl rfl⟩

/-- `True` on the success constructor of a handler result. -/
def exceptIsOk : Except HTTPError α → Bool
  | .ok _ => true
  | .error _ => false

/-- Two budgets of user 1 for May 2025 with distinct categories. -/
def budgetPairDb : Db :=
  { emptyDb with budgets :=
      [{ id := 1, name := "food", amount := 10, category_id := some 1,
         user_id := 1, month := 5, year := 2025, alert_threshold := 80 },
       { id := 2, name := "fun", amount := 20, category_id := some 2,
         user_id := 1, month := 5, year := 2025, alert_threshold := 80 }] }

/-- The update payload that moves budget 2 onto budget 1's category. -/
def budgetCollideUpdate : BudgetUpdate :=
  { name := none, amount := none, category_id := some 1,
    alert_threshold := none }

/-- C2 counterexample: `update_budget` re-checks nothing, so updating
budget 2's `category_id` to category 1 succeeds and leaves user 1 with two
budgets sharing (category 1, May, 2025) — the claimed invariant
preservation by `update_budget` is false. -/
theorem C2_budget_uniqueness_counterexample :
    budgetsKeyUnique budgetPairDb.budgets = true ∧
    exceptIsOk (update_budget 1 2 budgetCollideUpdate budgetPairDb).1 = true ∧
    budgetsKeyUnique
      (update_budget 1 2 budgetCollideUpdate budgetPairDb).2.budgets = false :=
  ⟨by decide, by decide, by decide⟩

/-- C2 (amended): each user has at most one budget per
(category_id, month, year); `create_budget` preserves the invariant —
rejecting a duplicate with 400 and an unchanged database — and
`delete_budget` preserves it, but `update_budget` performs no duplicate
re-check and can break it when `category_id` is changed (see the
counterexample). -/
theorem C2_budget_uniqueness_create_delete (uid : ℕ) (budget_data : BudgetCreate)
    (budget_id : ℕ) (db : Db)
    (hinv : budgetsKeyUnique db.budgets = true) :
    (¬ (truthy budget_data.category_id = true ∧
        (db.categories.find? (fun c => c.id = budget_data.category_id.getD 0 ∧
          c.user_id = uid)).isNone = true) →
      (db.budgets.find? (fun b => b.user_id = uid ∧
        b.category_id = budget_data.category_id ∧
        b.month = budget_data.month ∧ b.year = budget_data.year)).isSome →
      create_budget uid budget_data db =
        (.error { status_code := 400,
                  detail := "Budget already exists for this category and period" },
         db)) ∧
    (∀ (b : Budget) (db1 : Db), create_budget uid budget_data db = (.ok b, db1) →
      budgetsKeyUnique db1.budgets = true) ∧
    budgetsKeyUnique (delete_budget uid budget_id db).2.budgets = true := by
  refine ⟨?_, ?_, ?_⟩
  · intro hcat hdup
    simp only [create_budget, if_neg hcat, hdup, if_true]
  · intro b db1 hc
    simp only [create_budget] at hc
    split at hc
    · simp at hc
    · split at hc
      · simp at hc
      · rename_i hdup
        rw [Prod.mk.injEq] at hc
        obtain ⟨-, hdb⟩ := hc
        subst hdb
        have hnone : db.budgets.find? (fun x => x.user_id = uid ∧
            x.category_id = budget_data.category_id ∧
            x.month = budget_data.month ∧ x.year = budget_data.year) = none :=
          Option.not_isSome_iff_eq_none.mp hdup
        refine budgetsKeyUnique_append_singleton db.budgets _ hinv ?_
        intro x hx
        have hnp := List.find?_eq_none.mp hnone x hx
        simp only [decide_eq_true_eq] at hnp
        simp only [sameBudgetKey, decide_eq_false_iff_not]
        exact hnp
  · rcases h : db.budgets.find? (fun b => b.id = budget_id ∧
        b.user_id = uid) with _ | a
    · simp only [delete_budget, h, hinv]
    · simp only [delete_budget, h]
      exact budgetsKeyUnique_sublist (List.eraseP_sublist db.budgets) hinv

/-- User 1 already has a May-2025 budget on category 1 (which exists and is
theirs); the duplicate creation request targets the same key and the fresh
one targets June. -/
def budgetWitnessDb : Db :=
  { emptyDb with
      categories := [{ id := 1, name := "food", user_id := 1 }],
      budgets :=
        [{ id := 1, name := "food", amount := 10, category_id := some 1,
           user_id := 1, month := 5, year := 2025, alert_threshold := 80 }],
      next_budget_id := 2 }

/-- The duplicate creation request of the C2 witness. -/
def dupBudgetData : BudgetCreate :=
  { name := "food again", amount := 15, category_id := some 1, month := 5,
    year := 2025, alert_threshold := 80 }

/-- The fresh (June) creation request of the C2 witness. -/
def freshBudgetData : BudgetCreate :=
  { name := "june food", amount := 15, category_id := some 1, month := 6,
    year := 2025, alert_threshold := 80 }

/-- The row created for `freshBudgetData`. -/
def freshBudgetRow : Budget :=
  { id := 2, name := "june food", amount := 15, category_id := some 1,
    user_id := 1, month := 6, year := 2025, alert_threshold := 80 }

/-- The state after the fresh creation of the C2 witness. -/
def freshBudgetDb : Db :=
  { budgetWitnessDb with
      budgets := budgetWitnessDb.budgets ++ [freshBudgetRow],
      next_budget_id := 3 }

/-- Witness for C2 (amended) at concrete inputs: the duplicate request is
rejected with 400 leaving the state unchanged, the fresh June creation
preserves the invariant, and so does deleting budget 1. -/
theorem C2_budget_uniqueness_create_delete_witness :
    (create_budget 1 dupBudgetData budgetWitnessDb =
      (.error { status_code := 400,
                detail := "Budget already exists for this category and period" },
       budgetWitnessDb)) ∧
    budgetsKeyUnique freshBudgetDb.budgets = true ∧
    budgetsKeyUnique (delete_budget 1 1 budgetWitnessDb).2.budgets = true :=
  ⟨(C2_budget_uniqueness_create_delete 1 dupBudgetData 1 budgetWitnessDb
      (by decide)).1 (by decide) (by decide),
   (C2_budget_uniqueness_create_delete 1 freshBudgetData 1 budgetWitnessDb
      (by decide)).2.1 freshBudgetRow freshBudgetDb rfl,
   (C2_budget_uniqueness_create_delete 1 dupBudgetData 1 budgetWitnessDb
      (by decide)).2.2⟩

/-! ## String-order infrastructure for the monthly-trend claims -/

theorem char_eq_of_toNat_eq {a b : Char} (h : a.toNat = b.toNat) : a = b :=
  Char.eq_of_val_eq (UInt32.ext h)

theorem pyCharsLt_irrefl (l : List Char) : pyCharsLt l l = false := by
  induction l with
  | nil => rfl
  | cons a as ih => simp [pyCharsLt, ih]

theorem pyCharsLt_asymm {l1 : List Char} :
    ∀ {l2 : List Char}, pyCharsLt l1 l2 = true → pyCharsLt l2 l1 = false := by
  induction l1 with
  | nil =>
      intro l2 h
      cases l2 with
      | nil => simpa [pyCharsLt] using h
      | cons b bs => rfl
  | cons a as ih =>
      intro l2 h
      cases l2 with
      | nil => simpa [pyCharsLt] using h
      | cons b bs =>
          simp only [pyCharsLt] at h ⊢
          by_cases hab : a.toNat < b.toNat
          · rw [if_neg (by omega : ¬ b.toNat < a.toNat), if_pos hab]
          · by_cases hba : b.toNat < a.toNat
            · rw [if_neg hab, if_pos hba] at h
              exact absurd h (by simp)
            · rw [if_neg hab, if_neg hba] at h
              rw [if_neg hba, if_neg hab]
              exact ih h

theorem pyCharsLt_trichotomy (l1 : List Char) :
    ∀ (l2 : List Char),
      pyCharsLt l1 l2 = true ∨ l1 = l2 ∨ pyCharsLt l2 l1 = true := by
  induction l1 with
  | nil =>
      intro l2
      cases l2 with
      | nil => exact Or.inr (Or.inl rfl)
      | cons b bs => exact Or.inl rfl
  | cons a as ih =>
      intro l2
      cases l2 with
      | nil => exact Or.inr (Or.inr rfl)
      | cons b bs =>
          by_cases hab : a.toNat < b.toNat
          · left
            simp [pyCharsLt, hab]
          · by_cases hba : b.toNat < a.toNat
            · right; right
              simp [pyCharsLt, hba]
            · have hchar : a = b := char_eq_of_toNat_eq (by omega)
              subst hchar
              rcases ih bs with h | h | h
              · left
                simp [pyCharsLt, h]
              · right; left
                rw [h]
              · right; right
                simp [pyCharsLt, h]

theorem pyCharsLt_trans {l1 : List Char} :
    ∀ {l2 l3 : List Char}, pyCharsLt l1 l2 = true → pyCharsLt l2 l3 = true →
      pyCharsLt l1 l3 = true := by
  induction l1 with
  | nil =>
      intro l2 l3 h1 h2
      cases l2 with
      | nil => simpa [pyCharsLt] using h1
      | cons b bs =>
          cases l3 with
          | nil => simpa [pyCharsLt] using h2
          | cons c cs => rfl
  | cons a as ih =>
      intro l2 l3 h1 h2
      cases l2 with
      | nil => simpa [pyCharsLt] using h1
      | cons b bs =>
          cases l3 with
          | nil => simpa [pyCharsLt] using h2
          | cons c cs =>
              simp only [pyCharsLt] at h1 h2 ⊢
              by_cases hab : a.toNat < b.toNat
              · by_cases hbc : b.toNat < c.toNat
                · rw [if_pos (by omega : a.toNat < c.toNat)]
                · by_cases hcb : c.toNat < b.toNat
                  · rw [if_neg hbc, if_pos hcb] at h2
                    exact absurd h2 (by simp)
                  · rw [if_pos (by omega : a.toNat < c.toNat)]
              · by_cases hba : b.toNat < a.toNat
                · rw [if_neg hab, if_pos hba] at h1
                  exact absurd h1 (by simp)
                · by_cases hbc : b.toNat < c.toNat
                  · rw [if_pos (by omega : a.toNat < c.toNat)]
                  · by_cases hcb : c.toNat < b.toNat
                    · rw [if_neg hbc, if_pos hcb] at h2
                      exact absurd h2 (by simp)
                    · rw [if_neg hab, if_neg hba] at h1
                      rw [if_neg hbc, if_neg hcb] at h2
                      rw [if_neg (by omega : ¬ a.toNat < c.toNat),
                        if_neg (by omega : ¬ c.toNat < a.toNat)]
                      exact ih h1 h2

instance pyStrGeIsTotal : IsTotal String (fun a b => pyStrLt a b = false) := by
  constructor
  intro a b
  rcases pyCharsLt_trichotomy a.data b.data with h | h | h
  · right
    exact pyCharsLt_asymm h
  · left
    show pyCharsLt a.data b.data = false
    rw [h]
    exact pyCharsLt_irrefl _
  · left
    exact pyCharsLt_asymm h

instance pyStrGeIsTrans : IsTrans String (fun a b => pyStrLt a b = false) := by
  constructor
  intro a b c hab hbc
  have hab2 : pyCharsLt a.data b.data = false := hab
  have hbc2 : pyCharsLt b.data c.data = false := hbc
  show pyCharsLt a.data c.data = false
  rcases pyCharsLt_trichotomy a.data c.data with h | h | h
  · exfalso
    rcases pyCharsLt_trichotomy a.data b.data with h2 | h2 | h2
    · rw [h2] at hab2
      exact absurd hab2 (by simp)
    · rw [h2] at h
      rw [h] at hbc2
      exact absurd hbc2 (by simp)
    · have h3 := pyCharsLt_trans h2 h
      rw [h3] at hbc2
      exact absurd hbc2 (by simp)
  · rw [h]
    exact pyCharsLt_irrefl _
  · exact pyCharsLt_asymm h

theorem digitChar_toNat (d : ℕ) (h : d ≤ 9) :
    (Nat.digitChar d).toNat = 48 + d := by
  interval_cases d <;> decide

theorem charsOfNat_four (y : ℕ) (h1 : 1000 ≤ y) (h2 : y ≤ 9999) :
    charsOfNat y = [Nat.digitChar (y / 1000), Nat.digitChar (y / 100 % 10),
      Nat.digitChar (y / 10 % 10), Nat.digitChar (y % 10)] := by
  unfold charsOfNat natDecDigits
  rw [if_neg (by omega), if_neg (by omega), if_neg (by omega),
    if_pos (by omega)]
  rfl

theorem pyCharsLt_append (xs : List Char) :
    ∀ (ys as bs : List Char), xs.length = ys.length →
      pyCharsLt (xs ++ as) (ys ++ bs) =
        (if pyCharsLt xs ys then true
         else if pyCharsLt ys xs then false
         else pyCharsLt as bs) := by
  induction xs with
  | nil =>
      intro ys as bs h
      cases ys with
      | nil => simp [pyCharsLt]
      | cons y ys => simp at h
  | cons x xs ih =>
      intro ys as bs h
      cases ys with
      | nil => simp at h
      | cons y ys =>
          by_cases h1 : x.toNat < y.toNat
          · simp [pyCharsLt, h1]
          · by_cases h2 : y.toNat < x.toNat
            · simp [pyCharsLt, h1, h2]
            · have hlen : xs.length = ys.length := by simpa using h
              simp only [List.cons_append, pyCharsLt, if_neg h1, if_neg h2]
              exact ih ys as bs hlen

theorem pyCharsLt_year_iff (y1 y2 : ℕ) (h1 : 1000 ≤ y1) (h2 : y1 ≤ 9999)
    (h3 : 1000 ≤ y2) (h4 : y2 ≤ 9999) :
    (pyCharsLt (charsOfNat y1) (charsOfNat y2) = true ↔ y1 < y2) := by
  rw [charsOfNat_four y1 h1 h2, charsOfNat_four y2 h3 h4]
  simp only [pyCharsLt]
  rw [digitChar_toNat (y1 / 1000) (by omega),
    digitChar_toNat (y2 / 1000) (by omega),
    digitChar_toNat (y1 / 100 % 10) (by omega),
    digitChar_toNat (y2 / 100 % 10) (by omega),
    digitChar_toNat (y1 / 10 % 10) (by omega),
    digitChar_toNat (y2 / 10 % 10) (by omega),
    digitChar_toNat (y1 % 10) (by omega),
    digitChar_toNat (y2 % 10) (by omega)]
  split_ifs <;> simp_all <;> omega

theorem monthChars_eq (m : ℕ) (h1 : 1 ≤ m) (h2 : m ≤ 12) :
    (if m < 10 then [Nat.digitChar 0, Nat.digitChar m]
     else charsOfNat m) =
      [Nat.digitChar (m / 10), Nat.digitChar (m % 10)] := by
  by_cases h : m < 10
  · rw [if_pos h]
    have e1 : m / 10 = 0 := by omega
    have e2 : m % 10 = m := by omega
    rw [e1, e2]
  · rw [if_neg h]
    unfold charsOfNat natDecDigits
    rw [if_neg (by omega), if_pos (by omega)]
    rfl

theorem pyCharsLt_month_iff (m1 m2 : ℕ) (h1 : 1 ≤ m1) (h2 : m1 ≤ 12)
    (h3 : 1 ≤ m2) (h4 : m2 ≤ 12) :
    (pyCharsLt [Nat.digitChar (m1 / 10), Nat.digitChar (m1 % 10)]
      [Nat.digitChar (m2 / 10), Nat.digitChar (m2 % 10)] = true ↔ m1 < m2) := by
  simp only [pyCharsLt]
  rw [digitChar_toNat (m1 / 10) (by omega), digitChar_toNat (m2 / 10) (by omega),
    digitChar_toNat (m1 % 10) (by omega), digitChar_toNat (m2 % 10) (by omega)]
  split_ifs <;> simp_all <;> omega

/-- Under the four-digit-year restriction the string order of two
`strftime("%Y-%m")` keys agrees with the chronological order of the months
they render. -/
theorem strftimeYM_lt_iff (d1 d2 : DateTime)
    (h1 : 1000 ≤ d1.year) (h2 : d1.year ≤ 9999)
    (h3 : 1 ≤ d1.month) (h4 : d1.month ≤ 12)
    (h5 : 1000 ≤ d2.year) (h6 : d2.year ≤ 9999)
    (h7 : 1 ≤ d2.month) (h8 : d2.month ≤ 12) :
    (pyStrLt (strftimeYM d1) (strftimeYM d2) = true ↔
      monthIndex d1 < monthIndex d2) := by
  have hrw : pyStrLt (strftimeYM d1) (strftimeYM d2) =
      pyCharsLt
        (charsOfNat d1.year ++ '-' ::
          (if d1.month < 10 then [Nat.digitChar 0, Nat.digitChar d1.month]
           else charsOfNat d1.month))
        (charsOfNat d2.year ++ '-' ::
          (if d2.month < 10 then [Nat.digitChar 0, Nat.digitChar d2.month]
           else charsOfNat d2.month)) := rfl
  rw [hrw, monthChars_eq d1.month h3 h4, monthChars_eq d2.month h7 h8,
    pyCharsLt_append (charsOfNat d1.year) (charsOfNat d2.year) _ _
      (by rw [charsOfNat_four d1.year h1 h2, charsOfNat_four d2.year h5 h6]
          rfl)]
  have hdash : pyCharsLt
      ('-' :: [Nat.digitChar (d1.month / 10), Nat.digitChar (d1.month % 10)])
      ('-' :: [Nat.digitChar (d2.month / 10), Nat.digitChar (d2.month % 10)]) =
      pyCharsLt [Nat.digitChar (d1.month / 10), Nat.digitChar (d1.month % 10)]
        [Nat.digitChar (d2.month / 10), Nat.digitChar (d2.month % 10)] := by
    simp [pyCharsLt]
  rw [hdash]
  by_cases hy : d1.year < d2.year
  · rw [if_pos ((pyCharsLt_year_iff d1.year d2.year h1 h2 h5 h6).mpr hy)]
    simp only [monthIndex]
    constructor
    · intro _
      omega
    · intro _
      trivial
  · by_cases hy2 : d2.year < d1.year
    · rw [if_neg (fun hc =>
          hy ((pyCharsLt_year_iff d1.year d2.year h1 h2 h5 h6).mp hc)),
        if_pos ((pyCharsLt_year_iff d2.year d1.year h5 h6 h1 h2).mpr hy2)]
      simp only [monthIndex]
      constructor
      · intro hfalse
        exact absurd hfalse (by simp)
      · intro hlt
        exact absurd hlt (by omega)
    · rw [if_neg (fun hc =>
          hy ((pyCharsLt_year_iff d1.year d2.year h1 h2 h5 h6).mp hc)),
        if_neg (fun hc =>
          hy2 ((pyCharsLt_year_iff d2.year d1.year h5 h6 h1 h2).mp hc))]
      rw [pyCharsLt_month_iff d1.month d2.month h3 h4 h7 h8]
      simp only [monthIndex]
      omega

theorem sorted_keys_pairwise_strGt (ts : List Transaction) :
    List.Pairwise (fun a b : String => pyStrLt b a = true)
      (List.insertionSort (fun a b : String => pyStrLt a b = false)
        (monthKeys ts)) := by
  have hperm := List.perm_insertionSort
    (fun a b : String => pyStrLt a b = false) (monthKeys ts)
  have hnodup : (List.insertionSort (fun a b : String => pyStrLt a b = false)
      (monthKeys ts)).Nodup :=
    hperm.nodup_iff.mpr (List.nodup_dedup _)
  have hsorted : List.Sorted (fun a b : String => pyStrLt a b = false)
      (List.insertionSort (fun a b : String => pyStrLt a b = false)
        (monthKeys ts)) :=
    List.sorted_insertionSort _ _
  refine (hsorted.and hnodup).imp ?_
  rintro a b ⟨hge, hne⟩
  rcases pyCharsLt_trichotomy b.data a.data with h | h | h
  · exact h
  · have hba : b = a := congrArg String.mk h
    exact absurd hba (Ne.symm hne)
  · have hge2 : pyCharsLt a.data b.data = false := hge
    rw [h] at hge2
    exact absurd hge2 (by simp)

/-- C5 (amended): for a transaction list whose dates all carry four-digit
years (1000–9999; months 1–12 as `datetime` guarantees) and `months = m`
between 1 and 12, the dashboard's monthly trend returns at most `m`
entries; chronologically ordered oldest month first; every entry's key
occurs among the transactions and its `income` / `expense` cells are the
INCOME / EXPENSE amount sums of that key's transactions; and the entries
are the `m` chronologically most recent keys present: a key that occurs
but is absent can only be absent because the result already holds `m`
strictly more recent keys.  (Chronology between entries is stated through
the transactions generating their keys, via `monthIndex`.  For years below
1000 the claim fails — `%Y` renders them unpadded and the string sort
departs from chronology — see the counterexample.) -/
theorem C5_monthly_trend_spec (ts : List Transaction) (m : ℕ)
    (hm1 : 1 ≤ m) (hm2 : m ≤ 12)
    (hdates : ∀ t ∈ ts, 1000 ≤ t.transaction_date.year ∧
      t.transaction_date.year ≤ 9999 ∧ 1 ≤ t.transaction_date.month ∧
      t.transaction_date.month ≤ 12) :
    (monthly_trend_of ts m).length ≤ m ∧
    List.Pairwise (fun a b : MonthlyData =>
      ∀ t1 ∈ ts, ∀ t2 ∈ ts, strftimeYM t1.transaction_date = a.month →
        strftimeYM t2.transaction_date = b.month →
        monthIndex t1.transaction_date < monthIndex t2.transaction_date)
      (monthly_trend_of ts m) ∧
    (∀ e ∈ monthly_trend_of ts m,
      (∃ t ∈ ts, strftimeYM t.transaction_date = e.month) ∧
      e.income = ((ts.filter (fun t =>
        strftimeYM t.transaction_date = e.month ∧
        t.transaction_type = TransactionTypeEnum.INCOME)).map
          (fun t => t.amount)).sum ∧
      e.expense = ((ts.filter (fun t =>
        strftimeYM t.transaction_date = e.month ∧
        t.transaction_type = TransactionTypeEnum.EXPENSE)).map
          (fun t => t.amount)).sum) ∧
    (∀ k, (∃ t ∈ ts, strftimeYM t.transaction_date = k) →
      (∀ e ∈ monthly_trend_of ts m, e.month ≠ k) →
      (monthly_trend_of ts m).length = m ∧
      ∀ e ∈ monthly_trend_of ts m, ∀ t1 ∈ ts, ∀ t2 ∈ ts,
        strftimeYM t1.transaction_date = k →
        strftimeYM t2.transaction_date = e.month →
        monthIndex t1.transaction_date < monthIndex t2.transaction_date) := by
  have hgt := sorted_keys_pairwise_strGt ts
  have hchosen_sub : ((List.insertionSort
      (fun a b : String => pyStrLt a b = false) (monthKeys ts)).take m).Sublist
      (List.insertionSort (fun a b : String => pyStrLt a b = false)
        (monthKeys ts)) :=
    List.take_sublist m _
  have hgt_chosen := List.Pairwise.sublist hchosen_sub hgt
  have hmem_result : ∀ e ∈ monthly_trend_of ts m,
      ∃ k, k ∈ (List.insertionSort (fun a b : String => pyStrLt a b = false)
        (monthKeys ts)).take m ∧
        e = { month := k, income := month_income ts k,
              expense := month_expense ts k } := by
    intro e he
    simp only [monthly_trend_of, List.mem_map, List.mem_reverse] at he
    obtain ⟨k, hk, rfl⟩ := he
    exact ⟨k, hk, rfl⟩
  have hbridge : ∀ a b : String, pyStrLt a b = true →
      ∀ t1 ∈ ts, ∀ t2 ∈ ts, strftimeYM t1.transaction_date = a →
        strftimeYM t2.transaction_date = b →
        monthIndex t1.transaction_date < monthIndex t2.transaction_date := by
    intro a b hab t1 ht1 t2 ht2 he1 he2
    obtain ⟨hy1, hy2, hmo1, hmo2⟩ := hdates t1 ht1
    obtain ⟨hy3, hy4, hmo3, hmo4⟩ := hdates t2 ht2
    refine (strftimeYM_lt_iff t1.transaction_date t2.transaction_date
      hy1 hy2 hmo1 hmo2 hy3 hy4 hmo3 hmo4).mp ?_
    rw [he1, he2]
    exact hab
  refine ⟨?_, ?_, ?_, ?_⟩
  · simp only [monthly_trend_of, List.length_map, List.length_reverse,
      List.length_take]
    exact min_le_left _ _
  · simp only [monthly_trend_of]
    rw [List.pairwise_map, List.pairwise_reverse]
    exact hgt_chosen.imp (fun hab => hbridge _ _ hab)
  · intro e he
    obtain ⟨k, hk, rfl⟩ := hmem_result e he
    have hk_keys : k ∈ monthKeys ts :=
      ((List.perm_insertionSort (fun a b : String => pyStrLt a b = false)
        (monthKeys ts)).mem_iff).mp (hchosen_sub.subset hk)
    have hk_map : k ∈ ts.map (fun t => strftimeYM t.transaction_date) :=
      List.mem_dedup.mp hk_keys
    obtain ⟨t, ht, hkt⟩ := List.mem_map.mp hk_map
    exact ⟨⟨t, ht, hkt⟩, month_income_eq ts k, month_expense_eq ts k⟩
  · intro k hkocc habs
    have hk_keys : k ∈ monthKeys ts := by
      obtain ⟨t, ht, hkt⟩ := hkocc
      exact List.mem_dedup.mpr (List.mem_map.mpr ⟨t, ht, hkt⟩)
    have hk_sorted : k ∈ List.insertionSort
        (fun a b : String => pyStrLt a b = false) (monthKeys ts) :=
      ((List.perm_insertionSort (fun a b : String => pyStrLt a b = false)
        (monthKeys ts)).mem_iff).mpr hk_keys
    have hk_not_chosen : k ∉ (List.insertionSort
        (fun a b : String => pyStrLt a b = false) (monthKeys ts)).take m := by
      intro hk
      refine habs { month := k, income := month_income ts k,
                    expense := month_expense ts k } ?_ rfl
      simp only [monthly_trend_of, List.mem_map, List.mem_reverse]
      exact ⟨k, hk, rfl⟩
    have hk_drop : k ∈ (List.insertionSort
        (fun a b : String => pyStrLt a b = false) (monthKeys ts)).drop m := by
      have := hk_sorted
      rw [← List.take_append_drop m (List.insertionSort
        (fun a b : String => pyStrLt a b = false) (monthKeys ts)),
        List.mem_append] at this
      exact this.resolve_left hk_not_chosen
    have hlen : m < (List.insertionSort
        (fun a b : String => pyStrLt a b = false) (monthKeys ts)).length := by
      have h1 : 0 < ((List.insertionSort
          (fun a b : String => pyStrLt a b = false)
          (monthKeys ts)).drop m).length :=
        List.length_pos.mpr (List.ne_nil_of_mem hk_drop)
      rw [List.length_drop] at h1
      omega
    have hsplit : List.Pairwise (fun a b : String => pyStrLt b a = true)
        ((List.insertionSort (fun a b : String => pyStrLt a b = false)
          (monthKeys ts)).take m ++
         (List.insertionSort (fun a b : String => pyStrLt a b = false)
          (monthKeys ts)).drop m) := by
      rw [List.take_append_drop]
      exact hgt
    have hdom := (List.pairwise_append.mp hsplit).2.2
    refine ⟨?_, ?_⟩
    · simp only [monthly_trend_of, List.length_map, List.length_reverse,
        List.length_take]
      omega
    · intro e he
      obtain ⟨k2, hk2, rfl⟩ := hmem_result e he
      intro t1 ht1 t2 ht2 he1 he2
      exact hbridge k k2 (hdom k2 hk2 k hk_drop) t1 ht1 t2 ht2 he1 he2

/-- Two transactions of user 1: one dated December 999 and one dated
January 2025 — both admissible `datetime` values. -/
def ctTrendTxns : List Transaction :=
  [{ id := 1, amount := 5, description := none, transaction_type := .INCOME,
     category_id := none, custom_type_id := none, user_id := 1,
     transaction_date := ⟨999, 12, 1⟩, notes := none },
   { id := 2, amount := 3, description := none, transaction_type := .EXPENSE,
     category_id := none, custom_type_id := none, user_id := 1,
     transaction_date := ⟨2025, 1, 15⟩, notes := none }]

/-- C5 counterexample: `%Y` renders years below 1000 unpadded, so the
string `"999-12"` ranks above `"2025-01"` in the reverse string sort.  With
`months = 1` the trend keeps only `"999-12"` and omits the present,
chronologically more recent key `"2025-01"` — refuting the claim that the
result holds the `m` most recent month keys. -/
theorem C5_monthly_trend_counterexample :
    (monthly_trend_of ctTrendTxns 1).map (fun e => e.month) = ["999-12"] ∧
    (∃ t ∈ ctTrendTxns, strftimeYM t.transaction_date = "2025-01") ∧
    (∀ e ∈ monthly_trend_of ctTrendTxns 1, e.month ≠ "2025-01") ∧
    strftimeYM (⟨999, 12, 1⟩ : DateTime) = "999-12" ∧
    strftimeYM (⟨2025, 1, 15⟩ : DateTime) = "2025-01" ∧
    monthIndex ⟨999, 12, 1⟩ < monthIndex ⟨2025, 1, 15⟩ :=
  ⟨by decide, by decide, by decide, by decide, by decide, by decide⟩

/-- Three transactions of user 1 across two months of 2025, for the C5
witness. -/
def trendTxns : List Transaction :=
  [{ id := 1, amount := 100, description := none, transaction_type := .INCOME,
     category_id := none, custom_type_id := none, user_id := 1,
     transaction_date := ⟨2025, 1, 10⟩, notes := none },
   { id := 2, amount := 40, description := none, transaction_type := .EXPENSE,
     category_id := none, custom_type_id := none, user_id := 1,
     transaction_date := ⟨2025, 1, 20⟩, notes := none },
   { id := 3, amount := 7, description := none, transaction_type := .EXPENSE,
     category_id := none, custom_type_id := none, user_id := 1,
     transaction_date := ⟨2025, 2, 5⟩, notes := none }]

/-- Witness for C5 (amended) at concrete inputs (`m = 1`, two months of
four-digit-year data): the trend keeps at most one entry, its cells are
the filtered sums, and the dropped January key loses only to a full result
of chronologically more recent keys. -/
theorem C5_monthly_trend_spec_witness :
    (monthly_trend_of trendTxns 1).length ≤ 1 ∧
    (∀ e ∈ monthly_trend_of trendTxns 1,
      (∃ t ∈ trendTxns, strftimeYM t.transaction_date = e.month) ∧
      e.income = ((trendTxns.filter (fun t =>
        strftimeYM t.transaction_date = e.month ∧
        t.transaction_type = TransactionTypeEnum.INCOME)).map
          (fun t => t.amount)).sum ∧
      e.expense = ((trendTxns.filter (fun t =>
        strftimeYM t.transaction_date = e.month ∧
        t.transaction_type = TransactionTypeEnum.EXPENSE)).map
          (fun t => t.amount)).sum) ∧
    ((∃ t ∈ trendTxns, strftimeYM t.transaction_date = "2025-01") →
      (∀ e ∈ monthly_trend_of trendTxns 1, e.month ≠ "2025-01") →
      (monthly_trend_of trendTxns 1).length = 1 ∧
      ∀ e ∈ monthly_trend_of trendTxns 1, ∀ t1 ∈ trendTxns, ∀ t2 ∈ trendTxns,
        strftimeYM t1.transaction_date = "2025-01" →
        strftimeYM t2.transaction_date = e.month →
        monthIndex t1.transaction_date < monthIndex t2.transaction_date) :=
  ⟨(C5_monthly_trend_spec trendTxns 1 (by decide) (by decide) (by decide)).1,
   (C5_monthly_trend_spec trendTxns 1 (by decide) (by decide)
     (by decide)).2.2.1,
   (C5_monthly_trend_spec trendTxns 1 (by decide) (by decide)
     (by decide)).2.2.2 "2025-01"⟩
